import Mathlib

/-!
# ActivityPub client: vocabulary, collections, contextual errors, HTTP handlers

A shallow embedding of the Go sources

* `liked.go`, `shares.go`        (package `activitypub`): the `Liked`, `LikedCollection`
  and `Shares` views of an ordered collection;
* `activitypub/link.go`          : `Link`, `Mention`, `ValidLinkType`;
* `activitystreams/item.go`      : `ItemCollection`;
* `errors.go`                    (package `client`): the contextual error `err`;
* `handler/handlers.go`          : the activity / collection / item HTTP handlers.

Conventions of the embedding.

* Go strings and `[]byte` payloads are Lean `String`s.
* A Go `error` value is `Option GoError`: `none` is the `nil` error, `some e` an error
  whose `Error()` text is `e.text`.
* A Go interface value of type `Item` is `Option ItemValue`: `none` is the nil interface.
  Calling a method on the nil interface panics, which is made explicit with `Except Panic`.
* The unsigned machine integer `uint` is a `Nat` reduced modulo `2 ^ uintBits`.
* Methods with a pointer receiver return the updated receiver next to their result.
-/

/-! ## Shared vocabulary types -/

/-- Go `uint` width on a 64-bit target. -/
def uintBits : Nat := 64

/-- Number of values of a Go `uint`. -/
def uintSize : Nat := 2 ^ uintBits

/-- Largest length a Go slice can have (`len` is an `int`). -/
def maxSliceLen : Nat := 2 ^ 63 - 1

/-- Go `error` values other than nil, observed through `Error()`. -/
structure GoError where
  text : String
deriving DecidableEq, Repr

/-- The `Error()` method of a Go error value. -/
def GoError.Error (e : GoError) : String := e.text

/-- Run-time panics of the Go program. -/
inductive Panic where
  | nilDereference
deriving DecidableEq, Repr

abbrev ObjectID := String
abbrev IRI := String
abbrev ActivityVocabularyType := String
abbrev MimeType := String
abbrev URI := String
abbrev LangRef := String

/-- Modelled from the spec: the vocabulary constants are declared outside `src/`;
the type-tag "Link". -/
def LinkType : ActivityVocabularyType := "Link"

/-- Modelled from the spec: the vocabulary constants are declared outside `src/`;
the type-tag "Mention". -/
def MentionType : ActivityVocabularyType := "Mention"

/-- Modelled from the spec: the vocabulary constants are declared outside `src/`;
the type-tag "Object". -/
def ObjectType : ActivityVocabularyType := "Object"

/-- Modelled from the spec: the vocabulary constants are declared outside `src/`;
the type-tag "Collection". -/
def CollectionType : ActivityVocabularyType := "Collection"

/-- Modelled from the spec: the vocabulary constants are declared outside `src/`;
the type-tag "OrderedCollection". -/
def OrderedCollectionType : ActivityVocabularyType := "OrderedCollection"

/-- Modelled from the spec: `NaturalLanguageValue` is declared outside `src/`; a
language-tagged text is a sequence of (language, value) pairs. -/
abbrev NaturalLanguageValue := List (LangRef × String)

/-- Modelled from the spec: `NaturalLanguageValuesNew` is declared outside `src/`; it
returns a zero-length, allocated value. -/
def NaturalLanguageValuesNew : NaturalLanguageValue := []

/-- A non-nil value behind the `Item` (`ObjectOrLink`) interface whose four capability
methods `GetID`, `GetType`, `IsLink`, `IsObject` return, observed through what they
return. -/
structure ItemValue where
  id : ObjectID
  typ : ActivityVocabularyType
  isLink : Bool
  isObject : Bool
deriving DecidableEq, Repr

/-- An interface value of type `Item`; `none` is the nil interface. -/
abbrev Item := Option ItemValue

/-- Method call `it.GetType()` through the interface: a nil interface panics. -/
def Item.GetType : Item → Except Panic ActivityVocabularyType
  | none => Except.error Panic.nilDereference
  | some v => Except.ok v.typ

/-! ## `activitystreams/item.go` : `ItemCollection` as a value -/

/-- Go: `type ItemCollection []Item`, as the sequence of elements the slice denotes. -/
abbrev ItemCollection := List Item

namespace ItemCollection

/-- Go: `func (i ItemCollection) GetID() *ObjectID { return nil }` -/
def GetID (_i : ItemCollection) : Option ObjectID := none

/-- Go: `func (i ItemCollection) GetLink() IRI` -/
def GetLink (_i : ItemCollection) : IRI := ""

/-- Go: `func (i ItemCollection) First() Item`: nil for `len(i) == 0`, otherwise `i[0]`. -/
def First (i : ItemCollection) : Item :=
  if i.length = 0 then none else i.headD none

/-- Go: `func (i ItemCollection) GetType()`: `i.First().GetType()`. -/
def GetType (i : ItemCollection) : Except Panic ActivityVocabularyType :=
  Item.GetType (First i)

/-- Go: `func (i ItemCollection) IsLink() bool { return false }` -/
def IsLink (_i : ItemCollection) : Bool := false

/-- Go: `func (i ItemCollection) IsObject() bool { return false }` -/
def IsObject (_i : ItemCollection) : Bool := false

end ItemCollection

/-! ## Ordered collections and their views (`liked.go`, `shares.go`) -/

/-- Modelled from the spec: the `OrderedCollection` struct is declared outside `src/`.
Its fields are the ones the spec lists for the collection family and the sources use:
identifier, type-tag, language-tagged name / summary / content, the `TotalItems` counter
(a Go `uint`) and the ordered items. -/
structure OrderedCollection where
  ID : ObjectID
  Typ : ActivityVocabularyType
  Name : NaturalLanguageValue
  Summary : NaturalLanguageValue
  Content : NaturalLanguageValue
  TotalItems : Nat
  OrderedItems : ItemCollection
deriving DecidableEq, Repr

/-- The zero value `OrderedCollection{}`. -/
def OrderedCollection.zero : OrderedCollection :=
  { ID := "", Typ := "", Name := [], Summary := [], Content := [],
    TotalItems := 0, OrderedItems := [] }

/-- Modelled from the spec: `OrderedCollection.GetID` is declared outside `src/`; the
test dereferences its result and compares it with the `ID` field, so it is a non-nil
pointer to the identifier. -/
def OrderedCollection.GetID (c : OrderedCollection) : Option ObjectID := some c.ID

/-- Go: `Liked OrderedCollection` -/
abbrev Liked := OrderedCollection

/-- Go: `LikedCollection Liked` -/
abbrev LikedCollection := Liked

/-- Go: `Shares OrderedCollection` -/
abbrev Shares := OrderedCollection

/-- Go: `x++` on a Go `uint`. -/
def uintInc (x : Nat) : Nat := (x + 1) % uintSize

/-- Go: `func LikedNew() *OrderedCollection` -/
def LikedNew : OrderedCollection :=
  let id : ObjectID := "liked"
  let l : OrderedCollection := { OrderedCollection.zero with ID := id, Typ := CollectionType }
  let l := { l with Name := NaturalLanguageValuesNew }
  let l := { l with Content := NaturalLanguageValuesNew }
  let l := { l with TotalItems := 0 }
  l

/-- Go: `func SharesNew() *Shares` -/
def SharesNew : Shares :=
  let id : ObjectID := "Shares"
  let i : Shares := { OrderedCollection.zero with ID := id, Typ := CollectionType }
  let i := { i with Name := NaturalLanguageValuesNew }
  let i := { i with Content := NaturalLanguageValuesNew }
  let i := { i with TotalItems := 0 }
  i

namespace LikedCollection

/-- Go: `func (l *LikedCollection) Append(o Item) error` -/
def Append (l : LikedCollection) (o : Item) : LikedCollection × Option GoError :=
  let l := { l with OrderedItems := l.OrderedItems ++ [o] }
  let l := { l with TotalItems := uintInc l.TotalItems }
  (l, none)

/-- Go: `func (l LikedCollection) Collection() CollectionInterface` -/
def Collection (l : LikedCollection) : OrderedCollection := l

/-- Go: `func (l LikedCollection) GetID() ObjectID` -/
def GetID (l : LikedCollection) : Option ObjectID := OrderedCollection.GetID (Collection l)

/-- Go: `func (l LikedCollection) GetLink() IRI` -/
def GetLink (l : LikedCollection) : IRI := l.ID

/-- Go: `func (l LikedCollection) GetType() ActivityVocabularyType` -/
def GetType (l : LikedCollection) : ActivityVocabularyType := l.Typ

/-- Go: `func (l LikedCollection) IsLink() bool` -/
def IsLink (_l : LikedCollection) : Bool := false

/-- Go: `func (l LikedCollection) IsObject() bool` -/
def IsObject (_l : LikedCollection) : Bool := true

end LikedCollection

namespace Liked

/-- Go: `func (l *Liked) Append(ob Item) error` -/
def Append (l : Liked) (ob : Item) : Liked × Option GoError :=
  let l := { l with OrderedItems := l.OrderedItems ++ [ob] }
  let l := { l with TotalItems := uintInc l.TotalItems }
  (l, none)

/-- Go: `func (l Liked) Collection() CollectionInterface` -/
def Collection (l : Liked) : OrderedCollection := l

/-- Go: `func (l Liked) GetID() ObjectID` -/
def GetID (l : Liked) : Option ObjectID := OrderedCollection.GetID (Collection l)

/-- Go: `func (l Liked) GetLink() IRI` -/
def GetLink (l : Liked) : IRI := l.ID

/-- Go: `func (l Liked) GetType() ActivityVocabularyType` -/
def GetType (l : Liked) : ActivityVocabularyType := l.Typ

/-- Go: `func (l Liked) IsLink() bool` -/
def IsLink (_l : Liked) : Bool := false

/-- Go: `func (l Liked) IsObject() bool` -/
def IsObject (_l : Liked) : Bool := true

end Liked

namespace Shares

/-- Go: `func (o *Shares) Append(ob Item) error` -/
def Append (o : Shares) (ob : Item) : Shares × Option GoError :=
  let o := { o with OrderedItems := o.OrderedItems ++ [ob] }
  let o := { o with TotalItems := uintInc o.TotalItems }
  (o, none)

/-- Go: `func (o Shares) Collection() CollectionInterface` -/
def Collection (o : Shares) : OrderedCollection := o

/-- Go: `func (o Shares) GetID() ObjectID` -/
def GetID (o : Shares) : Option ObjectID := OrderedCollection.GetID (Collection o)

/-- Go: `func (o Shares) GetLink() IRI` -/
def GetLink (o : Shares) : IRI := o.ID

/-- Go: `func (o Shares) GetType() ActivityVocabularyType` -/
def GetType (o : Shares) : ActivityVocabularyType := o.Typ

/-- Go: `func (o Shares) IsLink() bool` -/
def IsLink (_o : Shares) : Bool := false

/-- Go: `func (o Shares) IsObject() bool` -/
def IsObject (_o : Shares) : Bool := true

end Shares

/-- A caller performing `Append` once per element of `items`, in order, on one receiver;
returns the final receiver and the error returned by each call. -/
def appendAll (app : OrderedCollection → Item → OrderedCollection × Option GoError) :
    OrderedCollection → List Item → OrderedCollection × List (Option GoError)
  | c, [] => (c, [])
  | c, o :: rest =>
    let r := app c o
    let t := appendAll app r.1 rest
    (t.1, r.2 :: t.2)

/-! ## `activitystreams/item.go` : `ItemCollection.Append` on slices in memory

`Append` has a pointer receiver and replaces the slice it points to, so what it does to
the backing storage is only visible in a model with explicit backing arrays.  A `Mem` is
the list of allocated backing arrays; a `Slice` is a Go slice header. -/

/-- Allocated backing arrays of `Item` cells, addressed by position. -/
abbrev Mem := List (List Item)

/-- A Go slice header: backing array, offset of the first element, length, capacity. -/
structure Slice where
  arr : Nat
  off : Nat
  len : Nat
  cap : Nat
deriving DecidableEq, Repr

/-- Cell `k` of backing array `a` (nil for a cell outside the allocation). -/
def Mem.read (m : Mem) (a k : Nat) : Item := (m.getD a []).getD k none

/-- Store `v` into cell `k` of backing array `a`. -/
def Mem.write (m : Mem) (a k : Nat) (v : Item) : Mem := m.set a ((m.getD a []).set k v)

/-- Go: `make(ItemCollection, n)`: a fresh backing array of `n` nil cells and its header. -/
def Mem.make (m : Mem) (n : Nat) : Mem × Slice :=
  (m ++ [List.replicate n none], { arr := m.length, off := 0, len := n, cap := n })

/-- Element `k` of slice `s`, i.e. `s[k]`. -/
def Slice.get (m : Mem) (s : Slice) (k : Nat) : Item := m.read s.arr (s.off + k)

/-- Assignment `s[k] = v`. -/
def Slice.put (m : Mem) (s : Slice) (k : Nat) (v : Item) : Mem := m.write s.arr (s.off + k) v

/-- The sequence of elements slice `s` denotes in memory `m`. -/
def Slice.view (m : Mem) (s : Slice) : ItemCollection :=
  (List.range s.len).map (Slice.get m s)

/-- The loop `for k, it := range *i { d[k] = it }`, over the indices still to visit. -/
def ItemCollection.copyLoop (src d : Slice) : List Nat → Mem → Mem
  | [], m => m
  | k :: ks, m => ItemCollection.copyLoop src d ks (Slice.put m d k (Slice.get m src k))

/-- Go: `func (i *ItemCollection) Append(o Item) error`.  `i` is the slice header the
receiver points to; the result is the memory, the header stored back through the
receiver, and the returned error. -/
def ItemCollection.Append (m : Mem) (i : Slice) (o : Item) : Mem × Slice × Option GoError :=
  let oldLen := i.len
  let md := Mem.make m (oldLen + 1)
  let d := md.2
  let m1 := ItemCollection.copyLoop i d (List.range i.len) md.1
  let m2 := Slice.put m1 d oldLen o
  (m2, d, none)

/-! ## `activitypub/link.go` : `Link` and `Mention` -/

/-- Go: `var validLinkTypes = [...]ActivityVocabularyType{ MentionType }` -/
def validLinkTypes : List ActivityVocabularyType := [MentionType]

/-- The loop of `ValidLinkType` over the remaining table entries. -/
def ValidLinkType.loop (typ : ActivityVocabularyType) : List ActivityVocabularyType → Bool
  | [] => false
  | v :: rest => if v == typ then true else ValidLinkType.loop typ rest

/-- Go: `func ValidLinkType(typ ActivityVocabularyType) bool` -/
def ValidLinkType (typ : ActivityVocabularyType) : Bool :=
  ValidLinkType.loop typ validLinkTypes

/-- Go: `type Link struct`.  `Rel *Link` is `Option Link` (nil pointer is `none`), the
`uint` dimensions are naturals, `Preview ObjectOrLink` is an interface value. -/
inductive Link where
  | mk (ID : ObjectID) (Typ : ActivityVocabularyType) (Name : NaturalLanguageValue)
      (Rel : Option Link) (MediaType : MimeType) (Height : Nat) (Width : Nat)
      (Preview : Item) (Href : URI) (HrefLang : LangRef)

/-- Go: `type Mention Link` -/
abbrev Mention := Link

namespace Link

/-- Field `ID`. -/
def ID : Link → ObjectID
  | mk id _ _ _ _ _ _ _ _ _ => id

/-- Field `Type`. -/
def Typ : Link → ActivityVocabularyType
  | mk _ typ _ _ _ _ _ _ _ _ => typ

/-- Field `Name`. -/
def Name : Link → NaturalLanguageValue
  | mk _ _ name _ _ _ _ _ _ _ => name

/-- Field `Rel`. -/
def Rel : Link → Option Link
  | mk _ _ _ rel _ _ _ _ _ _ => rel

/-- Field `MediaType`. -/
def MediaType : Link → MimeType
  | mk _ _ _ _ mt _ _ _ _ _ => mt

/-- Field `Height`. -/
def Height : Link → Nat
  | mk _ _ _ _ _ h _ _ _ _ => h

/-- Field `Width`. -/
def Width : Link → Nat
  | mk _ _ _ _ _ _ w _ _ _ => w

/-- Field `Preview`. -/
def Preview : Link → Item
  | mk _ _ _ _ _ _ _ p _ _ => p

/-- Field `Href`. -/
def Href : Link → URI
  | mk _ _ _ _ _ _ _ _ h _ => h

/-- Field `HrefLang`. -/
def HrefLang : Link → LangRef
  | mk _ _ _ _ _ _ _ _ _ l => l

/-- The zero value `Link{}`. -/
def zero : Link := mk "" "" [] none "" 0 0 none "" ""

/-- Go: `func (l Link) IsLink() bool` -/
def IsLink (l : Link) : Bool :=
  l.Typ == LinkType || ValidLinkType l.Typ

/-- Go: `func (l Link) IsObject() bool`.  `ValidObjectType` is declared outside `src/` and
is a parameter. -/
def IsObject (ValidObjectType : ActivityVocabularyType → Bool) (l : Link) : Bool :=
  l.Typ == ObjectType || ValidObjectType l.Typ

/-- Go: `func (l Link) GetID() ObjectID` -/
def GetID (l : Link) : ObjectID := l.ID

/-- Go: `func (l Link) GetType() ActivityVocabularyType` -/
def GetType (l : Link) : ActivityVocabularyType := l.Typ

end Link

/-- Go: `func LinkNew(id ObjectID, typ ActivityVocabularyType) *Link` -/
def LinkNew (id : ObjectID) (typ : ActivityVocabularyType) : Link :=
  let typ := if !ValidLinkType typ then LinkType else typ
  Link.mk id typ [] none "" 0 0 none "" ""

/-- Go: `func MentionNew(id ObjectID) *Mention` -/
def MentionNew (id : ObjectID) : Mention :=
  Link.mk id MentionType [] none "" 0 0 none "" ""

namespace Mention

/-- The zero value `Mention{}`. -/
def zero : Mention := Link.mk "" "" [] none "" 0 0 none "" ""

/-- Go: `func (m Mention) IsLink() bool` -/
def IsLink (m : Mention) : Bool :=
  Link.Typ m == MentionType || ValidLinkType (Link.Typ m)

/-- Go: `func (m Mention) IsObject() bool`.  `ValidObjectType` is declared outside `src/`
and is a parameter. -/
def IsObject (ValidObjectType : ActivityVocabularyType → Bool) (m : Mention) : Bool :=
  Link.Typ m == ObjectType || ValidObjectType (Link.Typ m)

/-- Go: `func (m Mention) GetID() ObjectID` -/
def GetID (m : Mention) : ObjectID := Link.ID m

/-- Go: `func (m Mention) GetType() ActivityVocabularyType` -/
def GetType (m : Mention) : ActivityVocabularyType := Link.Typ m

end Mention

/-! ## `errors.go` : the contextual error -/

namespace client

/-- Modelled from the spec: `VocabIRI` is declared outside `src/`; the subject identifier
of an error is an IRI, a string-typed identifier. -/
structure VocabIRI where
  val : String
deriving DecidableEq, Repr

/-- Modelled from the spec: `VocabIRI.String` is declared outside `src/`; it yields the
text of the IRI. -/
def VocabIRI.String (i : VocabIRI) : String := i.val

set_option linter.dupNamespace false in
/-- Go: `type err struct`, with fields `err error`, `msg string`, `i VocabIRI`. -/
structure err where
  err : Option GoError
  msg : String
  i : VocabIRI
deriving DecidableEq, Repr

namespace err

/-- Go: `func (e err) annotate(err error) err` -/
def annotate (e : client.err) (cause : Option GoError) : client.err :=
  { e with err := cause }

/-- Go: `func (e err) iri(i VocabIRI) err` -/
def iri (e : client.err) (i : VocabIRI) : client.err :=
  { e with i := i }

/-- Go: `func (e err) Error() string`, the `strings.Builder` being the text written so
far. -/
def Error (e : client.err) : String :=
  let s := ""
  let s := s ++ e.msg
  let s := if VocabIRI.String e.i != "" then (s ++ ": ") ++ VocabIRI.String e.i else s
  let s := match e.err with
    | some c => (s ++ ": ") ++ c.Error
    | none => s
  s

/-- Go: `func (e err) Unwrap() error` -/
def Unwrap (e : client.err) : Option GoError := e.err

end err

/-- Go: `func errf(msg string, p ...interface{}) err`; `fmt.Sprintf` is the parameter
`sprintf`. -/
def errf (sprintf : String → List String → String) (msg : String) (p : List String) : err :=
  { err := none, msg := sprintf msg p, i := { val := "" } }

end client

/-! ## `handler/handlers.go` : the HTTP handler protocol

The collaborators of a handler are explicit: the request carries its method and the values
of its context; `http.ResponseWriter` is a value recording what was sent; the package
variable `Typer`, the JSON-LD marshaller and the business function are function
parameters.  An `Exec` pairs the response writer after `ServeHTTP` with the collaborator
calls `ServeHTTP` made, in order. -/

namespace handler

/-- Go: `type CtxtKey string` -/
abbrev CtxtKey := String

/-- Go: `var RepositoryKey = CtxtKey("__repo")` -/
def RepositoryKey : CtxtKey := "__repo"

/-- The string type `CollectionType` of package `handler`, declared outside `src/`. -/
abbrev CollectionType := String

def MethodGet : String := "GET"
def MethodHead : String := "HEAD"
def MethodPost : String := "POST"
def StatusOK : Int := 200
def StatusCreated : Int := 201
def StatusMethodNotAllowed : Int := 405
def StatusNotAcceptable : Int := 406
def StatusGone : Int := 410
def StatusInternalServerError : Int := 500

/-- A value stored in a request context, with the storage interfaces its dynamic type
implements (what the type assertions `ctxVal.(storage.X)` test). -/
structure CtxValue where
  name : String
  isActivitySaver : Bool
  isCollectionLoader : Bool
  isObjectLoader : Bool
deriving DecidableEq, Repr

/-- The part of `*http.Request` the handlers read: the method and the context bindings,
innermost first. -/
structure Request where
  Method : String
  ctx : List (CtxtKey × CtxValue)
deriving DecidableEq, Repr

/-- Go: `r.Context().Value(key)`: the innermost binding of `key`, nil when there is none. -/
def Request.ContextValue (r : Request) (key : CtxtKey) : Option CtxValue :=
  r.ctx.lookup key

/-- The check `checkWriteHeaderCode` that `WriteHeader` of `net/http` (the server and the
`httptest` recorder alike) makes before it accepts a status code: a code below 100 or
above 999 makes `WriteHeader` panic. -/
def checkWriteHeaderCode (code : Int) : Bool :=
  decide (100 ≤ code) && decide (code ≤ 999)

/-- The rule `bodyAllowedForStatus` of `net/http`: informational codes, 204 and 304 do not
permit a response body. -/
def bodyAllowedForStatus (status : Int) : Bool :=
  !(decide (100 ≤ status) && decide (status ≤ 199)) && status != 204 && status != 304

/-- An `http.ResponseWriter`, as the record of what the handler made it do: the header
map, the status line once written, the headers that went out with the status line, the
chunks passed to `Write`, and whether a call has panicked.  A panic unwinds the handler,
so no later call of the handler happens: on a panicked writer every operation leaves the
record as it is. -/
structure ResponseWriter where
  header : List (String × String)
  status : Option Int
  sent : List (String × String)
  body : List String
  panicked : Bool
deriving DecidableEq, Repr

namespace ResponseWriter

/-- A writer on which nothing has been sent. -/
def fresh : ResponseWriter :=
  { header := [], status := none, sent := [], body := [], panicked := false }

/-- Go: `w.WriteHeader(code)`: a second call changes nothing; otherwise the code is
checked (`checkWriteHeaderCode`, a panic when it fails) and the status line is sent with
the current header map. -/
def WriteHeader (w : ResponseWriter) (code : Int) : ResponseWriter :=
  if w.panicked then w
  else
    match w.status with
    | some _ => w
    | none =>
      if checkWriteHeaderCode code then { w with status := some code, sent := w.header }
      else { w with panicked := true }

/-- Go: `w.Write(dat)`: sends `200` first when no status line went out, then the chunk. -/
def Write (w : ResponseWriter) (dat : String) : ResponseWriter :=
  if w.panicked then w
  else
    let w := match w.status with
      | some _ => w
      | none => WriteHeader w StatusOK
    { w with body := w.body ++ [dat] }

/-- Go: `w.Header().Set(key, value)`: changes the header map only. -/
def HeaderSet (w : ResponseWriter) (key value : String) : ResponseWriter :=
  if w.panicked then w
  else { w with header := (key, value) :: w.header.filter (fun kv => kv.1 != key) }

/-- The value of response header `key` as it went out with the status line. -/
def sentHeader (w : ResponseWriter) (key : String) : Option String :=
  w.sent.lookup key

end ResponseWriter

/-- Collaborator calls made by `ServeHTTP`. -/
inductive Call where
  | storage
  | typer
  | business
  | marshal
deriving DecidableEq, Repr

/-- Outcome of one `ServeHTTP`: the response writer and the calls made, in order. -/
structure Exec where
  w : ResponseWriter
  calls : List Call
deriving DecidableEq, Repr

/-- The closure `writeResponse := func(status int, dat []byte)` of the three `ServeHTTP`
methods. -/
def writeResponse (r : Request) (w : ResponseWriter) (status : Int) (dat : String) :
    ResponseWriter :=
  let w := w.WriteHeader status
  if r.Method == MethodGet then w.Write dat else w

/-- Go: `fmt.Errorf("invalid HTTP method %s", r.Method)` -/
def invalidMethod (r : Request) : GoError :=
  { text := "invalid HTTP method " ++ r.Method }

/-- Go: `errors.New("unable to load storage from context")` -/
def storageUnavailable : GoError :=
  { text := "unable to load storage from context" }

/-- Go: `type ActivityHandlerFn func(CollectionType, *http.Request, storage.ActivitySaver)
(as.IRI, int, error)` -/
abbrev ActivityHandlerFn := CollectionType → Request → CtxValue → IRI × Int × Option GoError

/-- Go: `type CollectionHandlerFn func(CollectionType, *http.Request,
storage.CollectionLoader) (as.CollectionInterface, error)`; `κ` is the payload type. -/
abbrev CollectionHandlerFn (κ : Type) := CollectionType → Request → CtxValue → κ × Option GoError

/-- Go: `type ItemHandlerFn func(*http.Request, storage.ObjectLoader) (as.Item, error)`;
`κ` is the payload type. -/
abbrev ItemHandlerFn (κ : Type) := Request → CtxValue → κ × Option GoError

namespace ActivityHandlerFn

/-- Go: `func (a ActivityHandlerFn) Storage(r *http.Request) (storage.ActivitySaver, error)` -/
def Storage (_a : ActivityHandlerFn) (r : Request) : Except GoError CtxValue :=
  let ctxVal := r.ContextValue RepositoryKey
  match ctxVal with
  | some st => if st.isActivitySaver then Except.ok st else Except.error storageUnavailable
  | none => Except.error storageUnavailable

/-- Go: `func (a ActivityHandlerFn) ValidMethod(r *http.Request) bool` -/
def ValidMethod (_a : ActivityHandlerFn) (r : Request) : Bool :=
  r.Method != MethodPost

/-- Go: `func (a ActivityHandlerFn) ValidateRequest(r *http.Request) (int, error)` -/
def ValidateRequest (a : ActivityHandlerFn) (r : Request) : Int × Option GoError :=
  if !ValidMethod a r then (StatusNotAcceptable, some (invalidMethod r))
  else (StatusOK, none)

set_option linter.unusedVariables false in
/-- Go: `func (a ActivityHandlerFn) ServeHTTP(w http.ResponseWriter, r *http.Request)`.
The local `status` starts as `StatusInternalServerError`; each `match` binds the values
the corresponding statement assigns (`status, err = a.ValidateRequest(r)`,
`st, err := a.Storage(r)`, `iri, status, err = a(Typer.Type(r), r, st)`). -/
def ServeHTTP (Typer : Request → CollectionType) (a : ActivityHandlerFn)
    (w : ResponseWriter) (r : Request) : Exec :=
  let status : Int := StatusInternalServerError
  match ValidateRequest a r with
  | (status, some err) => { w := writeResponse r w status err.Error, calls := [] }
  | (status, none) =>
    match Storage a r with
    | Except.error err =>
      { w := writeResponse r w status err.Error, calls := [Call.storage] }
    | Except.ok st =>
      match a (Typer r) r st with
      | (_, status, some err) =>
        { w := writeResponse r w status err.Error,
          calls := [Call.storage, Call.typer, Call.business] }
      | (iri, status, none) =>
        let w := w.WriteHeader status
        let dw : String × ResponseWriter :=
          if status = StatusCreated then ("CREATED", w.HeaderSet "Location" iri)
          else if status = StatusGone then ("DELETED", w)
          else ("OK", w)
        { w := dw.2.Write dw.1, calls := [Call.storage, Call.typer, Call.business] }

end ActivityHandlerFn

namespace CollectionHandlerFn

/-- Go: `func (c CollectionHandlerFn) Storage(r *http.Request) (storage.CollectionLoader,
error)` -/
def Storage {κ : Type} (_c : CollectionHandlerFn κ) (r : Request) : Except GoError CtxValue :=
  let ctxVal := r.ContextValue RepositoryKey
  match ctxVal with
  | some repo => if repo.isCollectionLoader then Except.ok repo else Except.error storageUnavailable
  | none => Except.error storageUnavailable

/-- Go: `func (c CollectionHandlerFn) ValidMethod(r *http.Request) bool` -/
def ValidMethod {κ : Type} (_c : CollectionHandlerFn κ) (r : Request) : Bool :=
  r.Method == MethodGet || r.Method == MethodHead

/-- Go: `func (c CollectionHandlerFn) ValidateRequest(r *http.Request) (int, error)` -/
def ValidateRequest {κ : Type} (c : CollectionHandlerFn κ) (r : Request) : Int × Option GoError :=
  if !ValidMethod c r then (StatusMethodNotAllowed, some (invalidMethod r))
  else (StatusOK, none)

set_option linter.unusedVariables false in
/-- Go: `func (c CollectionHandlerFn) ServeHTTP(w http.ResponseWriter, r *http.Request)`.
The local `status` starts as `StatusInternalServerError`; each `match` binds the values
the corresponding statement assigns (`status, err = c.ValidateRequest(r)`,
`st, err := c.Storage(r)`, `col, err := c(Typer.Type(r), r, st)`, `dat, err = Marshal(col)`). -/
def ServeHTTP {κ : Type} (Typer : Request → CollectionType)
    (Marshal : κ → String × Option GoError) (c : CollectionHandlerFn κ)
    (w : ResponseWriter) (r : Request) : Exec :=
  let status : Int := StatusInternalServerError
  match ValidateRequest c r with
  | (status, some err) => { w := writeResponse r w status err.Error, calls := [] }
  | (status, none) =>
    match Storage c r with
    | Except.error err =>
      { w := writeResponse r w status err.Error, calls := [Call.storage] }
    | Except.ok st =>
      match c (Typer r) r st with
      | (_, some err) =>
        { w := writeResponse r w status err.Error,
          calls := [Call.storage, Call.typer, Call.business] }
      | (col, none) =>
        match Marshal col with
        | (_, some err) =>
          { w := writeResponse r w status err.Error,
            calls := [Call.storage, Call.typer, Call.business, Call.marshal] }
        | (dat, none) =>
          let status := StatusOK
          { w := writeResponse r w status dat,
            calls := [Call.storage, Call.typer, Call.business, Call.marshal] }

end CollectionHandlerFn

namespace ItemHandlerFn

/-- Go: `func (i ItemHandlerFn) Storage(r *http.Request) (storage.ObjectLoader, error)` -/
def Storage {κ : Type} (_i : ItemHandlerFn κ) (r : Request) : Except GoError CtxValue :=
  let ctxVal := r.ContextValue RepositoryKey
  match ctxVal with
  | some st => if st.isObjectLoader then Except.ok st else Except.error storageUnavailable
  | none => Except.error storageUnavailable

/-- Go: `func (i ItemHandlerFn) ValidMethod(r *http.Request) bool` -/
def ValidMethod {κ : Type} (_i : ItemHandlerFn κ) (r : Request) : Bool :=
  r.Method != MethodGet && r.Method != MethodHead

/-- Go: `func (i ItemHandlerFn) ValidateRequest(r *http.Request) (int, error)` -/
def ValidateRequest {κ : Type} (i : ItemHandlerFn κ) (r : Request) : Int × Option GoError :=
  if !ValidMethod i r then (StatusMethodNotAllowed, some (invalidMethod r))
  else (StatusOK, none)

set_option linter.unusedVariables false in
/-- Go: `func (i ItemHandlerFn) ServeHTTP(w http.ResponseWriter, r *http.Request)`.
The local `status` starts as `StatusInternalServerError`; each `match` binds the values
the corresponding statement assigns (`status, err = i.ValidateRequest(r)`,
`st, err := i.Storage(r)`, `it, err := i(r, st)`, `dat, err = Marshal(it)`). -/
def ServeHTTP {κ : Type} (Marshal : κ → String × Option GoError) (i : ItemHandlerFn κ)
    (w : ResponseWriter) (r : Request) : Exec :=
  let status : Int := StatusInternalServerError
  match ValidateRequest i r with
  | (status, some err) => { w := writeResponse r w status err.Error, calls := [] }
  | (status, none) =>
    match Storage i r with
    | Except.error err =>
      { w := writeResponse r w status err.Error, calls := [Call.storage] }
    | Except.ok st =>
      match i r st with
      | (_, some err) =>
        { w := writeResponse r w status err.Error, calls := [Call.storage, Call.business] }
      | (it, none) =>
        match Marshal it with
        | (_, some err) =>
          { w := writeResponse r w status err.Error,
            calls := [Call.storage, Call.business, Call.marshal] }
        | (dat, none) =>
          let status := StatusOK
          { w := writeResponse r w status dat,
            calls := [Call.storage, Call.business, Call.marshal] }

end ItemHandlerFn

end handler

/-! ## Auxiliary definitions used in the statements -/

/-- The receiver `c` with `items` added at the end of `OrderedItems` and `TotalItems` set
to `total`, every other field kept. -/
def appended (c : OrderedCollection) (items : List Item) (total : Nat) : OrderedCollection :=
  { c with OrderedItems := c.OrderedItems ++ items, TotalItems := total }

/-- An object-shaped item, as in the test `TestLikedCollection_Append`. -/
def sampleItem : Item :=
  some { id := "grrr", typ := "Object", isLink := false, isObject := true }

/-- A collection whose `TotalItems` counter holds the largest `uint`. -/
def maxedCounter : OrderedCollection :=
  { OrderedCollection.zero with TotalItems := 18446744073709551615 }

/-- A slice header that is well formed in memory `m`: the length is within the capacity
and, unless the capacity is zero (as for the nil slice), the cells up to the capacity
lie inside an allocated backing array. -/
def Slice.Valid (m : Mem) (s : Slice) : Prop :=
  s.len ≤ s.cap ∧ (s.cap = 0 ∨ (s.arr < m.length ∧ s.off + s.cap ≤ (m.getD s.arr []).length))

/-- A memory with one backing array of three cells, the third one spare capacity. -/
def sampleMem : Mem := [[sampleItem, none, sampleItem]]

/-- A slice of length 2 and capacity 3 over the backing array of `sampleMem`. -/
def sampleSlice : Slice := { arr := 0, off := 0, len := 2, cap := 3 }

namespace handler

/-- A context value implementing the three storage interfaces. -/
def sampleRepo : CtxValue :=
  { name := "repo", isActivitySaver := true, isCollectionLoader := true, isObjectLoader := true }

/-- A context value implementing none of the storage interfaces. -/
def notAStore : CtxValue :=
  { name := "logger", isActivitySaver := false, isCollectionLoader := false,
    isObjectLoader := false }

/-- A `Typer` classifying every request as the inbox collection. -/
def sampleTyper : Request → CollectionType := fun _ => "inbox"

/-- A marshaller returning its payload unchanged. -/
def sampleMarshal : String → String × Option GoError := fun s => (s, none)

/-- An activity handler that reports a created object. -/
def createdActivity : ActivityHandlerFn :=
  fun _ _ _ => ("http://example.org/objects/1", 201, none)

/-- An activity handler that reports a deleted object. -/
def goneActivity : ActivityHandlerFn := fun _ _ _ => ("", 410, none)

/-- An activity handler that reports plain success. -/
def okActivity : ActivityHandlerFn := fun _ _ _ => ("", 200, none)

/-- A collection handler returning a fixed payload. -/
def sampleCollectionHandler : CollectionHandlerFn String := fun _ _ _ => ("collection", none)

/-- An item handler returning a fixed payload. -/
def sampleItemHandler : ItemHandlerFn String := fun _ _ => ("item", none)

/-- A request with the given method whose context binds the repository key to `v`. -/
def requestWith (method : String) (v : CtxValue) : Request :=
  { Method := method, ctx := [(RepositoryKey, v)] }

/-- A request with the given method and an empty context. -/
def requestNoRepo (method : String) : Request :=
  { Method := method, ctx := [] }

end handler

/-- The request reaches the success path of the activity handler: its method is allowed,
the storage is resolved and the business function returns a nil error. -/
def handler.ActivityHandlerFn.succeeds (Typer : handler.Request → handler.CollectionType)
    (a : handler.ActivityHandlerFn) (r : handler.Request) : Bool :=
  handler.ActivityHandlerFn.ValidMethod a r &&
    match handler.ActivityHandlerFn.Storage a r with
    | Except.ok st => (a (Typer r) r st).2.2.isNone
    | Except.error _ => false

/-- A contextual error with a subject IRI and a cause. -/
def client.sampleErr : client.err :=
  { err := some { text := "not found" }, msg := "unable to load",
    i := { val := "http://example.org/objects/1" } }

/-- An object-type table standing for `ValidObjectType`, without the link type-tags and
without the empty type-tag. -/
def sampleValidObjectType : ActivityVocabularyType → Bool :=
  fun typ => ["Article", "Note", "Collection", "OrderedCollection"].contains typ

/-- The HTTP statuses named by the status vocabulary: 200, 201, 405, 406, 410, 500. -/
def handler.statusVocabulary : List Int :=
  [handler.StatusOK, handler.StatusCreated, handler.StatusMethodNotAllowed,
   handler.StatusNotAcceptable, handler.StatusGone, handler.StatusInternalServerError]

/-- An activity handler that fails with status 404 and an error. -/
def handler.notFoundActivity : handler.ActivityHandlerFn :=
  fun _ _ _ => ("", 404, some { text := "not found" })

/-- An activity handler that succeeds with status 202. -/
def handler.acceptedActivity : handler.ActivityHandlerFn := fun _ _ _ => ("", 202, none)

/-- A marshaller that fails on every payload. -/
def handler.failingMarshal : String → String × Option GoError :=
  fun _ => ("", some { text := "marshal failed" })

/-- A collection handler whose business function fails. -/
def handler.failingCollectionHandler : handler.CollectionHandlerFn String :=
  fun _ _ _ => ("", some { text := "load failed" })

/-- A formatter standing for `fmt.Sprintf` on messages without verbs. -/
def client.sampleSprintf : String → List String → String := fun msg _ => msg

/-- An activity handler returning the zero status together with an error. -/
def handler.zeroStatusActivity : handler.ActivityHandlerFn :=
  fun _ _ _ => ("", 0, some { text := "boom" })

/-- A status code that `WriteHeader` accepts and with which `net/http` permits a response
body: a code in 200..999 other than 204 and 304. -/
def handler.permitsBody (status : Int) : Bool :=
  handler.checkWriteHeaderCode status && handler.bodyAllowedForStatus status

/-! # Properties -/

/-! ## Collections: `Append` and the item counter -/

theorem uintInc_of_lt (x : Nat) (h : x + 1 < uintSize) : uintInc x = x + 1 := by
  unfold uintInc
  exact Nat.mod_eq_of_lt h

theorem likedCollection_Append_eq (l : LikedCollection) (o : Item) :
    LikedCollection.Append l o = (appended l [o] (uintInc l.TotalItems), none) := rfl

theorem liked_Append_eq (l : Liked) (ob : Item) :
    Liked.Append l ob = (appended l [ob] (uintInc l.TotalItems), none) := rfl

theorem shares_Append_eq (o : Shares) (ob : Item) :
    Shares.Append o ob = (appended o [ob] (uintInc o.TotalItems), none) := rfl

theorem appendAll_eq (app : OrderedCollection → Item → OrderedCollection × Option GoError)
    (happ : ∀ c o, app c o = (appended c [o] (uintInc c.TotalItems), none)) :
    ∀ (items : List Item) (c : OrderedCollection),
      c.TotalItems + items.length < uintSize →
      appendAll app c items
        = (appended c items (c.TotalItems + items.length), List.replicate items.length none) := by
  intro items
  induction items with
  | nil =>
    intro c _
    simp [appendAll, appended]
  | cons o rest ih =>
    intro c hlt
    have hlen : (o :: rest).length = rest.length + 1 := rfl
    have h1 : c.TotalItems + 1 < uintSize := by omega
    have hinc : uintInc c.TotalItems = c.TotalItems + 1 := uintInc_of_lt _ h1
    have hrest : (appended c [o] (uintInc c.TotalItems)).TotalItems + rest.length < uintSize := by
      simp only [appended, hinc]
      omega
    simp only [appendAll, happ c o, ih _ hrest]
    simp only [appended, hinc, List.append_assoc, List.singleton_append, hlen,
      List.replicate_succ]
    congr 2
    omega

theorem maxSliceLen_lt_uintSize : maxSliceLen < uintSize := by
  unfold maxSliceLen uintSize uintBits
  norm_num

theorem appendAll_zero (app : OrderedCollection → Item → OrderedCollection × Option GoError)
    (happ : ∀ c o, app c o = (appended c [o] (uintInc c.TotalItems), none))
    (items : List Item) (hN : items.length ≤ maxSliceLen) :
    (appendAll app OrderedCollection.zero items).2 = List.replicate items.length none
    ∧ (appendAll app OrderedCollection.zero items).1.OrderedItems = items
    ∧ (appendAll app OrderedCollection.zero items).1.OrderedItems.length = items.length
    ∧ (appendAll app OrderedCollection.zero items).1.TotalItems = items.length := by
  have hlt := maxSliceLen_lt_uintSize
  have h := appendAll_eq app happ items OrderedCollection.zero
    (by simp only [OrderedCollection.zero]; omega)
  rw [h]
  simp [appended, OrderedCollection.zero]

theorem append_keeps_count (app : OrderedCollection → Item → OrderedCollection × Option GoError)
    (happ : ∀ c o, app c o = (appended c [o] (uintInc c.TotalItems), none))
    (c : OrderedCollection) (o : Item)
    (hinv : c.OrderedItems.length = c.TotalItems) (hc : c.OrderedItems.length < maxSliceLen) :
    (app c o).2 = none ∧ (app c o).1.OrderedItems.length = (app c o).1.TotalItems := by
  have hlt := maxSliceLen_lt_uintSize
  have hinc : uintInc c.TotalItems = c.TotalItems + 1 := uintInc_of_lt _ (by omega)
  rw [happ c o]
  simp [appended, hinc, hinv]

/-- C1: for `LikedCollection`, `Liked` and `Shares`, starting from the zero-valued
collection, after one `Append` per element of `items` (any `N = items.length` a slice can
hold) every call returned nil, `len(OrderedItems) = N` and `TotalItems = N`; and one
`Append` on any collection with `len(OrderedItems) = TotalItems` (and room for one more
element) returns nil and keeps `len(OrderedItems) = TotalItems`. -/
theorem C1_append_count_invariant (items : List Item) (c : OrderedCollection) (o : Item)
    (hN : items.length ≤ maxSliceLen)
    (hinv : c.OrderedItems.length = c.TotalItems)
    (hc : c.OrderedItems.length < maxSliceLen) :
    ((appendAll LikedCollection.Append OrderedCollection.zero items).2
        = List.replicate items.length none
      ∧ (appendAll LikedCollection.Append OrderedCollection.zero items).1.OrderedItems = items
      ∧ (appendAll LikedCollection.Append OrderedCollection.zero items).1.OrderedItems.length
          = items.length
      ∧ (appendAll LikedCollection.Append OrderedCollection.zero items).1.TotalItems
          = items.length)
    ∧ ((appendAll Liked.Append OrderedCollection.zero items).2
        = List.replicate items.length none
      ∧ (appendAll Liked.Append OrderedCollection.zero items).1.OrderedItems = items
      ∧ (appendAll Liked.Append OrderedCollection.zero items).1.OrderedItems.length
          = items.length
      ∧ (appendAll Liked.Append OrderedCollection.zero items).1.TotalItems = items.length)
    ∧ ((appendAll Shares.Append OrderedCollection.zero items).2
        = List.replicate items.length none
      ∧ (appendAll Shares.Append OrderedCollection.zero items).1.OrderedItems = items
      ∧ (appendAll Shares.Append OrderedCollection.zero items).1.OrderedItems.length
          = items.length
      ∧ (appendAll Shares.Append OrderedCollection.zero items).1.TotalItems = items.length)
    ∧ ((LikedCollection.Append c o).2 = none
      ∧ (LikedCollection.Append c o).1.OrderedItems.length
          = (LikedCollection.Append c o).1.TotalItems)
    ∧ ((Liked.Append c o).2 = none
      ∧ (Liked.Append c o).1.OrderedItems.length = (Liked.Append c o).1.TotalItems)
    ∧ ((Shares.Append c o).2 = none
      ∧ (Shares.Append c o).1.OrderedItems.length = (Shares.Append c o).1.TotalItems) :=
  ⟨appendAll_zero _ likedCollection_Append_eq items hN,
   appendAll_zero _ liked_Append_eq items hN,
   appendAll_zero _ shares_Append_eq items hN,
   append_keeps_count _ likedCollection_Append_eq c o hinv hc,
   append_keeps_count _ liked_Append_eq c o hinv hc,
   append_keeps_count _ shares_Append_eq c o hinv hc⟩

/-- Witness of C1: three appends from the zero value, and one append on the zero value. -/
theorem C1_append_count_invariant_witness :
    [sampleItem, none, sampleItem].length ≤ maxSliceLen
    ∧ OrderedCollection.zero.OrderedItems.length = OrderedCollection.zero.TotalItems
    ∧ OrderedCollection.zero.OrderedItems.length < maxSliceLen
    ∧ (appendAll LikedCollection.Append OrderedCollection.zero
        [sampleItem, none, sampleItem]).1.TotalItems = 3
    ∧ (Shares.Append OrderedCollection.zero sampleItem).1.OrderedItems.length
        = (Shares.Append OrderedCollection.zero sampleItem).1.TotalItems :=
  have hN : [sampleItem, none, sampleItem].length ≤ maxSliceLen := by
    unfold maxSliceLen; norm_num
  have hc : OrderedCollection.zero.OrderedItems.length < maxSliceLen := by
    unfold maxSliceLen; norm_num [OrderedCollection.zero]
  have h := C1_append_count_invariant [sampleItem, none, sampleItem]
    OrderedCollection.zero sampleItem hN rfl hc
  ⟨hN, rfl, hc, h.1.2.2.2, h.2.2.2.2.2.2⟩

/-- C2 (as stated) fails: on a `Liked` whose counter holds the largest `uint`, `Append`
leaves `TotalItems` at 0, not at the old value plus one. -/
theorem C2_counterexample_counter_wraps :
    (Liked.Append maxedCounter sampleItem).1.TotalItems = 0
    ∧ ¬ ((Liked.Append maxedCounter sampleItem).1.TotalItems = maxedCounter.TotalItems + 1) := by
  have h : (Liked.Append maxedCounter sampleItem).1.TotalItems = 0 := by
    simp [Liked.Append, maxedCounter, OrderedCollection.zero, uintInc, uintSize, uintBits]
  refine ⟨h, ?_⟩
  rw [h]
  simp [maxedCounter, OrderedCollection.zero]

/-- C2 (amended): for every `LikedCollection`, `Liked` or `Shares` value `c` whose counter
is below the largest `uint`, and every item `o` (present in `c` or not, of any type-tag),
`Append(o)` returns nil, leaves `OrderedItems` equal to the old sequence followed by `o`,
sets `TotalItems` to the old value plus one, and changes no other field. -/
theorem C2_append_contract (c : OrderedCollection) (o : Item)
    (h : c.TotalItems + 1 < uintSize) :
    LikedCollection.Append c o
        = ({ c with OrderedItems := c.OrderedItems ++ [o], TotalItems := c.TotalItems + 1 }, none)
    ∧ Liked.Append c o
        = ({ c with OrderedItems := c.OrderedItems ++ [o], TotalItems := c.TotalItems + 1 }, none)
    ∧ Shares.Append c o
        = ({ c with OrderedItems := c.OrderedItems ++ [o], TotalItems := c.TotalItems + 1 }, none) := by
  have hinc := uintInc_of_lt c.TotalItems h
  refine ⟨?_, ?_, ?_⟩
  · rw [likedCollection_Append_eq, hinc]; rfl
  · rw [liked_Append_eq, hinc]; rfl
  · rw [shares_Append_eq, hinc]; rfl

/-- Witness of C2 (amended): appending an item that is already present. -/
theorem C2_append_contract_witness :
    (appended OrderedCollection.zero [sampleItem] 1).TotalItems + 1 < uintSize
    ∧ (Liked.Append (appended OrderedCollection.zero [sampleItem] 1) sampleItem).1.OrderedItems
        = [sampleItem, sampleItem]
    ∧ (Liked.Append (appended OrderedCollection.zero [sampleItem] 1) sampleItem).1.TotalItems = 2 :=
  have h : (appended OrderedCollection.zero [sampleItem] 1).TotalItems + 1 < uintSize := by
    unfold uintSize uintBits; norm_num [appended]
  have t := (C2_append_contract (appended OrderedCollection.zero [sampleItem] 1) sampleItem h).2.1
  ⟨h, by rw [t]; rfl, by rw [t]; rfl⟩

/-! ## `ItemCollection`: `First`, `GetType`, `Append` -/

/-- C4: `ItemCollection.GetType` is `First().GetType()` for every collection and yields
the type-tag of a non-nil first element, but on the zero-length collection `First()` is
the nil interface and the method call on it panics: no zero type-tag is produced. -/
theorem C4_GetType_empty_panics (c : ItemCollection) (v : ItemValue) (rest : ItemCollection) :
    ItemCollection.GetType c = Item.GetType (ItemCollection.First c)
    ∧ ItemCollection.GetType (some v :: rest) = Except.ok v.typ
    ∧ ItemCollection.First [] = none
    ∧ ItemCollection.GetType [] = Except.error Panic.nilDereference
    ∧ ItemCollection.GetType (none :: rest) = Except.error Panic.nilDereference := by
  refine ⟨rfl, ?_, rfl, rfl, ?_⟩
  · simp [ItemCollection.GetType, ItemCollection.First, Item.GetType]
  · simp [ItemCollection.GetType, ItemCollection.First, Item.GetType]

theorem Mem.write_length (m : Mem) (a k : Nat) (v : Item) :
    (Mem.write m a k v).length = m.length := by
  simp [Mem.write]

theorem Mem.write_getElem?_ne (m : Mem) (a k b : Nat) (v : Item) (h : a ≠ b) :
    (Mem.write m a k v)[b]? = m[b]? := by
  simp [Mem.write, List.getElem?_set_ne h]

theorem ItemCollection.copyLoop_length (src d : Slice) :
    ∀ (ks : List Nat) (m : Mem), (ItemCollection.copyLoop src d ks m).length = m.length := by
  intro ks
  induction ks with
  | nil => intro m; rfl
  | cons k ks ih =>
    intro m
    simp only [ItemCollection.copyLoop, ih, Slice.put, Mem.write_length]

theorem ItemCollection.copyLoop_getElem?_ne (src d : Slice) (b : Nat) (h : d.arr ≠ b) :
    ∀ (ks : List Nat) (m : Mem), (ItemCollection.copyLoop src d ks m)[b]? = m[b]? := by
  intro ks
  induction ks with
  | nil => intro m; rfl
  | cons k ks ih =>
    intro m
    simp only [ItemCollection.copyLoop, ih, Slice.put, Mem.write_getElem?_ne _ _ _ _ _ h]

theorem ItemCollection.Append_getElem?_old (m : Mem) (i : Slice) (o : Item) (b : Nat)
    (hb : b < m.length) : (ItemCollection.Append m i o).1[b]? = m[b]? := by
  have hne : m.length ≠ b := by omega
  simp only [ItemCollection.Append, Mem.make, Slice.put]
  rw [Mem.write_getElem?_ne _ _ _ _ _ hne]
  rw [ItemCollection.copyLoop_getElem?_ne _ _ _ hne]
  exact List.getElem?_append_left hb

theorem ItemCollection.Append_mem_length (m : Mem) (i : Slice) (o : Item) :
    (ItemCollection.Append m i o).1.length = m.length + 1 := by
  simp [ItemCollection.Append, Mem.make, Slice.put, Mem.write_length,
    ItemCollection.copyLoop_length]

theorem ItemCollection.Append_take (m : Mem) (i : Slice) (o : Item) :
    (ItemCollection.Append m i o).1.take m.length = m := by
  apply List.ext_getElem?
  intro n
  by_cases hn : n < m.length
  · rw [List.getElem?_take_of_lt hn]
    exact ItemCollection.Append_getElem?_old m i o n hn
  · have h1 : m[n]? = none := List.getElem?_eq_none (by omega)
    rw [h1]
    apply List.getElem?_eq_none
    simp only [List.length_take, ItemCollection.Append_mem_length]
    omega

theorem Slice.view_eq_of_arr (m m2 : Mem) (s : Slice) (h : m2[s.arr]? = m[s.arr]?) :
    Slice.view m2 s = Slice.view m s := by
  unfold Slice.view
  apply List.map_congr_left
  intro k _
  simp only [Slice.get, Mem.read, List.getD_eq_getElem?_getD, h]

theorem Slice.view_length (m : Mem) (s : Slice) : (Slice.view m s).length = s.len := by
  simp [Slice.view]

/-- C3: `ItemCollection.Append` is copy-on-append.  For every memory `m`, well-formed
slice header `i` and item `o`: the call returns nil; the header stored through the
receiver has length `len(i) + 1` and points to a backing array allocated by the call; the
backing arrays that existed before the call are all unchanged (no old cell is written);
and a copy of the header taken before the call still denotes the same elements, with the
pre-append length. -/
theorem C3_append_copies (m : Mem) (i : Slice) (o : Item) (hv : Slice.Valid m i) :
    (ItemCollection.Append m i o).2.2 = none
    ∧ (ItemCollection.Append m i o).2.1.len = i.len + 1
    ∧ (Slice.view (ItemCollection.Append m i o).1 (ItemCollection.Append m i o).2.1).length
        = i.len + 1
    ∧ (ItemCollection.Append m i o).2.1.arr = m.length
    ∧ (ItemCollection.Append m i o).1.take m.length = m
    ∧ Slice.view (ItemCollection.Append m i o).1 i = Slice.view m i
    ∧ (Slice.view (ItemCollection.Append m i o).1 i).length = i.len := by
  refine ⟨rfl, rfl, ?_, rfl, ItemCollection.Append_take m i o, ?_, Slice.view_length _ _⟩
  · rw [Slice.view_length]; rfl
  · rcases hv with ⟨hle, hcap | ⟨harr, _⟩⟩
    · have h0 : i.len = 0 := by omega
      simp [Slice.view, h0]
    · exact Slice.view_eq_of_arr _ _ _ (ItemCollection.Append_getElem?_old m i o i.arr harr)

/-- Witness of C3: appending to a slice of length 2 with spare capacity 3; the spare cell
of the old backing array keeps its content. -/
theorem C3_append_copies_witness :
    Slice.Valid sampleMem sampleSlice
    ∧ (ItemCollection.Append sampleMem sampleSlice none).1.take sampleMem.length = sampleMem
    ∧ Slice.view (ItemCollection.Append sampleMem sampleSlice none).1 sampleSlice
        = [sampleItem, none] :=
  have hv : Slice.Valid sampleMem sampleSlice := by
    simp [Slice.Valid, sampleMem, sampleSlice]
  have h := C3_append_copies sampleMem sampleSlice none hv
  ⟨hv, h.2.2.2.2.1, by rw [h.2.2.2.2.2.1]; rfl⟩

/-! ## HTTP handlers -/

namespace handler

@[simp]
theorem checkWriteHeaderCode_StatusOK : checkWriteHeaderCode StatusOK = true := by decide

@[simp]
theorem checkWriteHeaderCode_StatusMethodNotAllowed :
    checkWriteHeaderCode StatusMethodNotAllowed = true := by decide

@[simp]
theorem checkWriteHeaderCode_StatusNotAcceptable :
    checkWriteHeaderCode StatusNotAcceptable = true := by decide

@[simp]
theorem checkWriteHeaderCode_200 : checkWriteHeaderCode 200 = true := by decide

@[simp]
theorem checkWriteHeaderCode_405 : checkWriteHeaderCode 405 = true := by decide

@[simp]
theorem checkWriteHeaderCode_406 : checkWriteHeaderCode 406 = true := by decide

theorem WriteHeader_fresh (code : Int) (hc : checkWriteHeaderCode code = true) :
    ResponseWriter.fresh.WriteHeader code
      = { header := [], status := some code, sent := [], body := [], panicked := false } := by
  simp [ResponseWriter.WriteHeader, ResponseWriter.fresh, hc]

theorem WriteHeader_fresh_panics (code : Int) (hc : checkWriteHeaderCode code = false) :
    ResponseWriter.fresh.WriteHeader code
      = { header := [], status := none, sent := [], body := [], panicked := true } := by
  simp [ResponseWriter.WriteHeader, ResponseWriter.fresh, hc]

theorem writeResponse_status (r : Request) (status : Int) (dat : String)
    (hc : checkWriteHeaderCode status = true) :
    (writeResponse r ResponseWriter.fresh status dat).status = some status := by
  unfold writeResponse
  rw [WriteHeader_fresh status hc]
  split <;> simp [ResponseWriter.Write]

theorem writeResponse_body (r : Request) (status : Int) (dat : String)
    (hc : checkWriteHeaderCode status = true) :
    (writeResponse r ResponseWriter.fresh status dat).body
      = if r.Method = MethodGet then [dat] else [] := by
  unfold writeResponse
  rw [WriteHeader_fresh status hc]
  by_cases h : r.Method = MethodGet
  · simp [h, ResponseWriter.Write]
  · simp [h]

theorem writeResponse_sent (r : Request) (status : Int) (dat : String) :
    (writeResponse r ResponseWriter.fresh status dat).sent = [] := by
  unfold writeResponse
  cases hc : checkWriteHeaderCode status with
  | true =>
    rw [WriteHeader_fresh status hc]
    split <;> simp [ResponseWriter.Write]
  | false =>
    rw [WriteHeader_fresh_panics status hc]
    split <;> simp [ResponseWriter.Write]

theorem writeResponse_panics (r : Request) (status : Int) (dat : String)
    (hc : checkWriteHeaderCode status = false) :
    writeResponse r ResponseWriter.fresh status dat
      = { header := [], status := none, sent := [], body := [], panicked := true } := by
  unfold writeResponse
  rw [WriteHeader_fresh_panics status hc]
  split <;> simp [ResponseWriter.Write]

end handler

/-- C5: for each handler kind and every request whose method is outside the kind's
allow-list, `ServeHTTP` on a fresh response writer makes no collaborator call at all (no
storage resolution, no `Typer`, no business function, no marshalling) and writes the
method-error status: 406 (`StatusNotAcceptable`) for activity handlers, 405
(`StatusMethodNotAllowed`) for collection and item handlers. -/
theorem C5_disallowed_method_short_circuits {κ : Type}
    (Typer : handler.Request → handler.CollectionType)
    (Marshal : κ → String × Option GoError)
    (a : handler.ActivityHandlerFn) (c : handler.CollectionHandlerFn κ)
    (i : handler.ItemHandlerFn κ) (ra rc ri : handler.Request)
    (ha : handler.ActivityHandlerFn.ValidMethod a ra = false)
    (hc : handler.CollectionHandlerFn.ValidMethod c rc = false)
    (hi : handler.ItemHandlerFn.ValidMethod i ri = false) :
    ((handler.ActivityHandlerFn.ServeHTTP Typer a handler.ResponseWriter.fresh ra).calls = []
      ∧ (handler.ActivityHandlerFn.ServeHTTP Typer a handler.ResponseWriter.fresh ra).w.status
          = some 406)
    ∧ ((handler.CollectionHandlerFn.ServeHTTP Typer Marshal c handler.ResponseWriter.fresh rc).calls
          = []
      ∧ (handler.CollectionHandlerFn.ServeHTTP Typer Marshal c
          handler.ResponseWriter.fresh rc).w.status = some 405)
    ∧ ((handler.ItemHandlerFn.ServeHTTP Marshal i handler.ResponseWriter.fresh ri).calls = []
      ∧ (handler.ItemHandlerFn.ServeHTTP Marshal i handler.ResponseWriter.fresh ri).w.status
          = some 405) := by
  refine ⟨?_, ?_, ?_⟩
  · simp [handler.ActivityHandlerFn.ServeHTTP, handler.ActivityHandlerFn.ValidateRequest, ha,
      handler.writeResponse_status, handler.StatusNotAcceptable]
  · simp [handler.CollectionHandlerFn.ServeHTTP, handler.CollectionHandlerFn.ValidateRequest, hc,
      handler.writeResponse_status, handler.StatusMethodNotAllowed]
  · simp [handler.ItemHandlerFn.ServeHTTP, handler.ItemHandlerFn.ValidateRequest, hi,
      handler.writeResponse_status, handler.StatusMethodNotAllowed]

/-- Witness of C5: an activity handler receiving POST, a collection handler receiving PUT
and an item handler receiving GET, each with a usable store in the context. -/
theorem C5_disallowed_method_short_circuits_witness :
    handler.ActivityHandlerFn.ValidMethod handler.createdActivity
        (handler.requestWith "POST" handler.sampleRepo) = false
    ∧ handler.CollectionHandlerFn.ValidMethod handler.sampleCollectionHandler
        (handler.requestWith "PUT" handler.sampleRepo) = false
    ∧ handler.ItemHandlerFn.ValidMethod handler.sampleItemHandler
        (handler.requestWith "GET" handler.sampleRepo) = false
    ∧ (handler.ItemHandlerFn.ServeHTTP handler.sampleMarshal handler.sampleItemHandler
        handler.ResponseWriter.fresh (handler.requestWith "GET" handler.sampleRepo)).calls = []
    ∧ (handler.ItemHandlerFn.ServeHTTP handler.sampleMarshal handler.sampleItemHandler
        handler.ResponseWriter.fresh (handler.requestWith "GET" handler.sampleRepo)).w.status
        = some 405 :=
  have ha : handler.ActivityHandlerFn.ValidMethod handler.createdActivity
      (handler.requestWith "POST" handler.sampleRepo) = false := by decide
  have hc : handler.CollectionHandlerFn.ValidMethod handler.sampleCollectionHandler
      (handler.requestWith "PUT" handler.sampleRepo) = false := by decide
  have hi : handler.ItemHandlerFn.ValidMethod handler.sampleItemHandler
      (handler.requestWith "GET" handler.sampleRepo) = false := by decide
  have h := C5_disallowed_method_short_circuits handler.sampleTyper handler.sampleMarshal
    handler.createdActivity handler.sampleCollectionHandler handler.sampleItemHandler
    _ _ _ ha hc hi
  ⟨ha, hc, hi, h.2.2.1, h.2.2.2⟩

namespace handler

/-- The context holds no value under the repository key, or one for which `ok` (the
capability test of a type assertion) is false. -/
theorem activity_Storage_unavailable (a : ActivityHandlerFn) (r : Request)
    (h : r.ContextValue RepositoryKey = none
      ∨ ∃ v, r.ContextValue RepositoryKey = some v ∧ v.isActivitySaver = false) :
    ActivityHandlerFn.Storage a r = Except.error storageUnavailable := by
  rcases h with h | ⟨v, h, hv⟩ <;> simp [ActivityHandlerFn.Storage, h, *]

theorem collection_Storage_unavailable {κ : Type} (c : CollectionHandlerFn κ)
    (r : Request)
    (h : r.ContextValue RepositoryKey = none
      ∨ ∃ v, r.ContextValue RepositoryKey = some v ∧ v.isCollectionLoader = false) :
    CollectionHandlerFn.Storage c r = Except.error storageUnavailable := by
  rcases h with h | ⟨v, h, hv⟩ <;> simp [CollectionHandlerFn.Storage, h, *]

theorem item_Storage_unavailable {κ : Type} (i : ItemHandlerFn κ) (r : Request)
    (h : r.ContextValue RepositoryKey = none
      ∨ ∃ v, r.ContextValue RepositoryKey = some v ∧ v.isObjectLoader = false) :
    ItemHandlerFn.Storage i r = Except.error storageUnavailable := by
  rcases h with h | ⟨v, h, hv⟩ <;> simp [ItemHandlerFn.Storage, h, *]

end handler

/-- C6 (as stated) fails: an item handler receiving POST with no repository in the context
answers with status 200 and no body, and a collection handler receiving GET with a
context value that is not a collection loader answers with status 200 (the error text is
the body); neither response has status 500. -/
theorem C6_counterexample_storage_failure_response :
    handler.ItemHandlerFn.ValidMethod handler.sampleItemHandler
        (handler.requestNoRepo "POST") = true
    ∧ (handler.requestNoRepo "POST").ContextValue handler.RepositoryKey = none
    ∧ (handler.ItemHandlerFn.ServeHTTP handler.sampleMarshal handler.sampleItemHandler
        handler.ResponseWriter.fresh (handler.requestNoRepo "POST")).w.status = some 200
    ∧ (handler.ItemHandlerFn.ServeHTTP handler.sampleMarshal handler.sampleItemHandler
        handler.ResponseWriter.fresh (handler.requestNoRepo "POST")).w.body = []
    ∧ ¬ ((handler.ItemHandlerFn.ServeHTTP handler.sampleMarshal handler.sampleItemHandler
          handler.ResponseWriter.fresh (handler.requestNoRepo "POST")).w.status = some 500
        ∧ (handler.ItemHandlerFn.ServeHTTP handler.sampleMarshal handler.sampleItemHandler
          handler.ResponseWriter.fresh (handler.requestNoRepo "POST")).w.body
            = ["unable to load storage from context"])
    ∧ (handler.CollectionHandlerFn.ServeHTTP handler.sampleTyper handler.sampleMarshal
        handler.sampleCollectionHandler handler.ResponseWriter.fresh
        (handler.requestWith "GET" handler.notAStore)).w.status = some 200
    ∧ (handler.CollectionHandlerFn.ServeHTTP handler.sampleTyper handler.sampleMarshal
        handler.sampleCollectionHandler handler.ResponseWriter.fresh
        (handler.requestWith "GET" handler.notAStore)).w.body
          = ["unable to load storage from context"] := by
  refine ⟨by decide, by decide, by decide, by decide, by decide, by decide, by decide⟩

/-- C6 (amended): for each handler kind and every request with an allowed method whose
context holds no value under the repository key, or a value that does not implement the
required storage capability, `ServeHTTP` on a fresh response writer calls nothing but
the storage resolution (never `Typer`, the business function or the marshaller), and the
error text "unable to load storage from context" is written as the response body exactly
when the request method is GET: otherwise no body is written, which is always the case
for an item handler. -/
theorem C6_storage_unavailable {κ : Type}
    (Typer : handler.Request → handler.CollectionType)
    (Marshal : κ → String × Option GoError)
    (a : handler.ActivityHandlerFn) (c : handler.CollectionHandlerFn κ)
    (i : handler.ItemHandlerFn κ) (ra rc ri : handler.Request)
    (hma : handler.ActivityHandlerFn.ValidMethod a ra = true)
    (hmc : handler.CollectionHandlerFn.ValidMethod c rc = true)
    (hmi : handler.ItemHandlerFn.ValidMethod i ri = true)
    (hsa : ra.ContextValue handler.RepositoryKey = none
      ∨ ∃ v, ra.ContextValue handler.RepositoryKey = some v ∧ v.isActivitySaver = false)
    (hsc : rc.ContextValue handler.RepositoryKey = none
      ∨ ∃ v, rc.ContextValue handler.RepositoryKey = some v ∧ v.isCollectionLoader = false)
    (hsi : ri.ContextValue handler.RepositoryKey = none
      ∨ ∃ v, ri.ContextValue handler.RepositoryKey = some v ∧ v.isObjectLoader = false) :
    ((handler.ActivityHandlerFn.ServeHTTP Typer a handler.ResponseWriter.fresh ra).calls
        = [handler.Call.storage]
      ∧ (handler.ActivityHandlerFn.ServeHTTP Typer a handler.ResponseWriter.fresh ra).w.body
        = (if ra.Method = handler.MethodGet then ["unable to load storage from context"] else []))
    ∧ ((handler.CollectionHandlerFn.ServeHTTP Typer Marshal c handler.ResponseWriter.fresh rc).calls
        = [handler.Call.storage]
      ∧ (handler.CollectionHandlerFn.ServeHTTP Typer Marshal c
          handler.ResponseWriter.fresh rc).w.body
        = (if rc.Method = handler.MethodGet then ["unable to load storage from context"] else []))
    ∧ ((handler.ItemHandlerFn.ServeHTTP Marshal i handler.ResponseWriter.fresh ri).calls
        = [handler.Call.storage]
      ∧ (handler.ItemHandlerFn.ServeHTTP Marshal i handler.ResponseWriter.fresh ri).w.body
        = (if ri.Method = handler.MethodGet then ["unable to load storage from context"] else [])
      ∧ (handler.ItemHandlerFn.ServeHTTP Marshal i handler.ResponseWriter.fresh ri).w.body = []) := by
  have hSa := handler.activity_Storage_unavailable a ra hsa
  have hSc := handler.collection_Storage_unavailable c rc hsc
  have hSi := handler.item_Storage_unavailable i ri hsi
  have hget : ri.Method ≠ handler.MethodGet := by
    intro hg
    simp [handler.ItemHandlerFn.ValidMethod, hg] at hmi
  refine ⟨?_, ?_, ?_⟩
  · simp [handler.ActivityHandlerFn.ServeHTTP, handler.ActivityHandlerFn.ValidateRequest, hma,
      hSa, handler.writeResponse_body, handler.storageUnavailable, GoError.Error]
  · simp [handler.CollectionHandlerFn.ServeHTTP, handler.CollectionHandlerFn.ValidateRequest, hmc,
      hSc, handler.writeResponse_body, handler.storageUnavailable, GoError.Error]
  · simp [handler.ItemHandlerFn.ServeHTTP, handler.ItemHandlerFn.ValidateRequest, hmi,
      hSi, handler.writeResponse_body, handler.storageUnavailable, GoError.Error, hget]

/-- Witness of C6 (amended): PUT to an activity handler and GET to a collection handler
whose context value is not a store, POST to an item handler with an empty context. -/
theorem C6_storage_unavailable_witness :
    handler.ActivityHandlerFn.ValidMethod handler.okActivity
        (handler.requestWith "PUT" handler.notAStore) = true
    ∧ handler.CollectionHandlerFn.ValidMethod handler.sampleCollectionHandler
        (handler.requestWith "GET" handler.notAStore) = true
    ∧ handler.ItemHandlerFn.ValidMethod handler.sampleItemHandler
        (handler.requestNoRepo "POST") = true
    ∧ (handler.CollectionHandlerFn.ServeHTTP handler.sampleTyper handler.sampleMarshal
        handler.sampleCollectionHandler handler.ResponseWriter.fresh
        (handler.requestWith "GET" handler.notAStore)).w.body
          = ["unable to load storage from context"]
    ∧ (handler.ItemHandlerFn.ServeHTTP handler.sampleMarshal handler.sampleItemHandler
        handler.ResponseWriter.fresh (handler.requestNoRepo "POST")).calls
          = [handler.Call.storage] :=
  have hma : handler.ActivityHandlerFn.ValidMethod handler.okActivity
      (handler.requestWith "PUT" handler.notAStore) = true := by decide
  have hmc : handler.CollectionHandlerFn.ValidMethod handler.sampleCollectionHandler
      (handler.requestWith "GET" handler.notAStore) = true := by decide
  have hmi : handler.ItemHandlerFn.ValidMethod handler.sampleItemHandler
      (handler.requestNoRepo "POST") = true := by decide
  have h := C6_storage_unavailable handler.sampleTyper handler.sampleMarshal
    handler.okActivity handler.sampleCollectionHandler handler.sampleItemHandler
    (handler.requestWith "PUT" handler.notAStore) (handler.requestWith "GET" handler.notAStore)
    (handler.requestNoRepo "POST") hma hmc hmi
    (Or.inr ⟨handler.notAStore, by decide, by decide⟩)
    (Or.inr ⟨handler.notAStore, by decide, by decide⟩)
    (Or.inl (by decide))
  ⟨hma, hmc, hmi, by rw [h.2.1.2]; decide, h.2.2.1⟩

/-- C7: an activity handler whose business function returns
("http://example.org/objects/1", 201, nil) on an allowed request (PUT, with a store in
the context) answers with status 201 and body "CREATED", but without a `Location` header:
the status line is written before `Location` is put into the header map, so the header is
in the map afterwards and not among the headers sent.  The bodies for 410 and for another
status are "DELETED" and "OK". -/
theorem C7_location_header_not_sent :
    handler.ActivityHandlerFn.ValidMethod handler.createdActivity
        (handler.requestWith "PUT" handler.sampleRepo) = true
    ∧ (handler.ActivityHandlerFn.ServeHTTP handler.sampleTyper handler.createdActivity
        handler.ResponseWriter.fresh (handler.requestWith "PUT" handler.sampleRepo)).w.status
          = some 201
    ∧ (handler.ActivityHandlerFn.ServeHTTP handler.sampleTyper handler.createdActivity
        handler.ResponseWriter.fresh (handler.requestWith "PUT" handler.sampleRepo)).w.body
          = ["CREATED"]
    ∧ (handler.ActivityHandlerFn.ServeHTTP handler.sampleTyper handler.createdActivity
        handler.ResponseWriter.fresh (handler.requestWith "PUT" handler.sampleRepo)).w.sentHeader
          "Location" = none
    ∧ (handler.ActivityHandlerFn.ServeHTTP handler.sampleTyper handler.createdActivity
        handler.ResponseWriter.fresh (handler.requestWith "PUT" handler.sampleRepo)).w.header
          = [("Location", "http://example.org/objects/1")]
    ∧ (handler.ActivityHandlerFn.ServeHTTP handler.sampleTyper handler.goneActivity
        handler.ResponseWriter.fresh (handler.requestWith "PUT" handler.sampleRepo)).w.body
          = ["DELETED"]
    ∧ (handler.ActivityHandlerFn.ServeHTTP handler.sampleTyper handler.okActivity
        handler.ResponseWriter.fresh (handler.requestWith "PUT" handler.sampleRepo)).w.body
          = ["OK"] := by
  refine ⟨by decide, by decide, by decide, by decide, by decide, by decide, by decide⟩

namespace handler

theorem writeResponse_body_ne_nil (r : Request) (status : Int) (dat : String)
    (hc : checkWriteHeaderCode status = true) :
    (writeResponse r ResponseWriter.fresh status dat).body ≠ [] ↔ r.Method = MethodGet := by
  rw [writeResponse_body r status dat hc]
  by_cases h : r.Method = MethodGet <;> simp [h]

theorem collection_ServeHTTP_shape {κ : Type} (Typer : Request → CollectionType)
    (Marshal : κ → String × Option GoError) (c : CollectionHandlerFn κ)
    (w : ResponseWriter) (r : Request) :
    ∃ status dat, checkWriteHeaderCode status = true
      ∧ (CollectionHandlerFn.ServeHTTP Typer Marshal c w r).w = writeResponse r w status dat := by
  unfold CollectionHandlerFn.ServeHTTP CollectionHandlerFn.ValidateRequest
  cases hm : CollectionHandlerFn.ValidMethod c r with
  | false => exact ⟨StatusMethodNotAllowed, _, by decide, rfl⟩
  | true =>
    simp only [Bool.not_true, Bool.false_eq_true, if_false]
    repeat' split
    all_goals exact ⟨StatusOK, _, by decide, rfl⟩

theorem item_ServeHTTP_shape {κ : Type}
    (Marshal : κ → String × Option GoError) (i : ItemHandlerFn κ)
    (w : ResponseWriter) (r : Request) :
    ∃ status dat, checkWriteHeaderCode status = true
      ∧ (ItemHandlerFn.ServeHTTP Marshal i w r).w = writeResponse r w status dat := by
  unfold ItemHandlerFn.ServeHTTP ItemHandlerFn.ValidateRequest
  cases hm : ItemHandlerFn.ValidMethod i r with
  | false => exact ⟨StatusMethodNotAllowed, _, by decide, rfl⟩
  | true =>
    simp only [Bool.not_true, Bool.false_eq_true, if_false]
    repeat' split
    all_goals exact ⟨StatusOK, _, by decide, rfl⟩

theorem activity_success_writer (iri : IRI) (status : Int)
    (hc : checkWriteHeaderCode status = true) :
    ((if status = StatusCreated then
          ("CREATED", (ResponseWriter.fresh.WriteHeader status).HeaderSet "Location" iri)
        else if status = StatusGone then ("DELETED", ResponseWriter.fresh.WriteHeader status)
        else ("OK", ResponseWriter.fresh.WriteHeader status)).2.Write
      (if status = StatusCreated then
          ("CREATED", (ResponseWriter.fresh.WriteHeader status).HeaderSet "Location" iri)
        else if status = StatusGone then ("DELETED", ResponseWriter.fresh.WriteHeader status)
        else ("OK", ResponseWriter.fresh.WriteHeader status)).1).status = some status
    ∧ ((if status = StatusCreated then
          ("CREATED", (ResponseWriter.fresh.WriteHeader status).HeaderSet "Location" iri)
        else if status = StatusGone then ("DELETED", ResponseWriter.fresh.WriteHeader status)
        else ("OK", ResponseWriter.fresh.WriteHeader status)).2.Write
      (if status = StatusCreated then
          ("CREATED", (ResponseWriter.fresh.WriteHeader status).HeaderSet "Location" iri)
        else if status = StatusGone then ("DELETED", ResponseWriter.fresh.WriteHeader status)
        else ("OK", ResponseWriter.fresh.WriteHeader status)).1).body ≠ [] := by
  rw [WriteHeader_fresh status hc]
  split_ifs <;> simp [ResponseWriter.Write, ResponseWriter.HeaderSet]

theorem activity_ServeHTTP_body {Typer : Request → CollectionType}
    (a : ActivityHandlerFn) (r : Request)
    (hs : ∀ st, ActivityHandlerFn.ValidMethod a r = true →
      ActivityHandlerFn.Storage a r = Except.ok st →
      checkWriteHeaderCode (a (Typer r) r st).2.1 = true) :
    ((ActivityHandlerFn.ServeHTTP Typer a ResponseWriter.fresh r).w.body ≠ []
      ↔ (r.Method = MethodGet ∨ ActivityHandlerFn.succeeds Typer a r = true))
    ∧ (ActivityHandlerFn.ServeHTTP Typer a ResponseWriter.fresh r).w.status.isSome = true := by
  unfold ActivityHandlerFn.ServeHTTP ActivityHandlerFn.succeeds ActivityHandlerFn.ValidateRequest
  cases hm : ActivityHandlerFn.ValidMethod a r with
  | false =>
    simp [writeResponse_body_ne_nil, writeResponse_status]
  | true =>
    cases hst : ActivityHandlerFn.Storage a r with
    | error e =>
      simp [writeResponse_body_ne_nil, writeResponse_status]
    | ok st =>
      have hc := hs st hm hst
      rcases hb : a (Typer r) r st with ⟨iri, status, e⟩
      rw [hb] at hc
      cases e with
      | some e =>
        simp [hb, writeResponse_body_ne_nil _ _ _ hc, writeResponse_status _ _ _ hc]
      | none =>
        simp only [hb, Bool.not_true, Bool.false_eq_true, if_false, Bool.true_and,
          Option.isNone_none, or_true, iff_true]
        have hw := activity_success_writer iri status hc
        exact ⟨hw.2, by rw [hw.1]; rfl⟩

end handler

/-- C8 (as stated) fails: an activity handler that succeeds on a PUT request writes the
body "OK" although the method is not GET; and an activity handler whose business function
returns the zero status with an error writes nothing for a GET request, because
`WriteHeader(0)` panics before the body is written. -/
theorem C8_counterexample_activity_success_body :
    (handler.requestWith "PUT" handler.sampleRepo).Method ≠ handler.MethodGet
    ∧ (handler.ActivityHandlerFn.ServeHTTP handler.sampleTyper handler.okActivity
        handler.ResponseWriter.fresh (handler.requestWith "PUT" handler.sampleRepo)).w.body
          = ["OK"]
    ∧ ¬ ((handler.ActivityHandlerFn.ServeHTTP handler.sampleTyper handler.okActivity
          handler.ResponseWriter.fresh (handler.requestWith "PUT" handler.sampleRepo)).w.body ≠ []
        ↔ (handler.requestWith "PUT" handler.sampleRepo).Method = handler.MethodGet)
    ∧ (handler.requestWith "GET" handler.sampleRepo).Method = handler.MethodGet
    ∧ (handler.ActivityHandlerFn.ServeHTTP handler.sampleTyper handler.zeroStatusActivity
        handler.ResponseWriter.fresh (handler.requestWith "GET" handler.sampleRepo)).w.panicked
          = true
    ∧ (handler.ActivityHandlerFn.ServeHTTP handler.sampleTyper handler.zeroStatusActivity
        handler.ResponseWriter.fresh (handler.requestWith "GET" handler.sampleRepo)).w.status
          = none
    ∧ (handler.ActivityHandlerFn.ServeHTTP handler.sampleTyper handler.zeroStatusActivity
        handler.ResponseWriter.fresh (handler.requestWith "GET" handler.sampleRepo)).w.body
          = [] := by
  refine ⟨by decide, by decide, by decide, by decide, by decide, by decide, by decide⟩

namespace handler

theorem activity_ServeHTTP_panics {Typer : Request → CollectionType}
    (a : ActivityHandlerFn) (r : Request) (st : CtxValue)
    (hm : ActivityHandlerFn.ValidMethod a r = true)
    (hst : ActivityHandlerFn.Storage a r = Except.ok st)
    (hc : checkWriteHeaderCode (a (Typer r) r st).2.1 = false) :
    (ActivityHandlerFn.ServeHTTP Typer a ResponseWriter.fresh r).w
      = { header := [], status := none, sent := [], body := [], panicked := true } := by
  unfold ActivityHandlerFn.ServeHTTP ActivityHandlerFn.ValidateRequest
  rcases hb : a (Typer r) r st with ⟨iri, status, e⟩
  rw [hb] at hc
  cases e with
  | some e => simp [hm, hst, hb, writeResponse_panics _ _ _ hc]
  | none =>
    simp only [hm, hst, hb, Bool.not_true, Bool.false_eq_true, if_false]
    rw [WriteHeader_fresh_panics status hc]
    split_ifs <;> simp [ResponseWriter.Write, ResponseWriter.HeaderSet]

end handler

/-- C8 (amended): on a fresh response writer, a collection or item handler writes a status
line and writes a response body if and only if the request method is GET, on success and
on failure.  For an activity handler the outcome depends on the status its business
function returns for the request, when that function is reached (allowed method, storage
resolved).  If the function is not reached, or the status is a code with which `net/http`
permits a body (200..999 other than 204 and 304), the handler writes a status line and
writes a body if and only if the request method is GET or the request succeeds (nil error
from the business function): its failures write a body only for GET, its success path
writes the fixed body for every method.  If the status is outside 100..999, `WriteHeader`
panics and neither a status line nor a body is written, whatever the method. -/
theorem C8_body_written {κ : Type}
    (Typer : handler.Request → handler.CollectionType)
    (Marshal : κ → String × Option GoError)
    (a : handler.ActivityHandlerFn) (c : handler.CollectionHandlerFn κ)
    (i : handler.ItemHandlerFn κ) (r : handler.Request) :
    (((handler.CollectionHandlerFn.ServeHTTP Typer Marshal c handler.ResponseWriter.fresh r).w.body
          ≠ [] ↔ r.Method = handler.MethodGet)
      ∧ (handler.CollectionHandlerFn.ServeHTTP Typer Marshal c
          handler.ResponseWriter.fresh r).w.status.isSome = true)
    ∧ (((handler.ItemHandlerFn.ServeHTTP Marshal i handler.ResponseWriter.fresh r).w.body ≠ []
          ↔ r.Method = handler.MethodGet)
      ∧ (handler.ItemHandlerFn.ServeHTTP Marshal i
          handler.ResponseWriter.fresh r).w.status.isSome = true)
    ∧ ((∀ st, handler.ActivityHandlerFn.ValidMethod a r = true →
          handler.ActivityHandlerFn.Storage a r = Except.ok st →
          handler.permitsBody (a (Typer r) r st).2.1 = true) →
        ((handler.ActivityHandlerFn.ServeHTTP Typer a handler.ResponseWriter.fresh r).w.body ≠ []
            ↔ (r.Method = handler.MethodGet
                ∨ handler.ActivityHandlerFn.succeeds Typer a r = true))
        ∧ (handler.ActivityHandlerFn.ServeHTTP Typer a
            handler.ResponseWriter.fresh r).w.status.isSome = true)
    ∧ (∀ st, handler.ActivityHandlerFn.ValidMethod a r = true →
          handler.ActivityHandlerFn.Storage a r = Except.ok st →
          handler.checkWriteHeaderCode (a (Typer r) r st).2.1 = false →
        (handler.ActivityHandlerFn.ServeHTTP Typer a handler.ResponseWriter.fresh r).w.panicked
            = true
        ∧ (handler.ActivityHandlerFn.ServeHTTP Typer a handler.ResponseWriter.fresh r).w.status
            = none
        ∧ (handler.ActivityHandlerFn.ServeHTTP Typer a handler.ResponseWriter.fresh r).w.body
            = []) := by
  refine ⟨?_, ?_, ?_, ?_⟩
  · obtain ⟨status, dat, hc, h⟩ :=
      handler.collection_ServeHTTP_shape Typer Marshal c handler.ResponseWriter.fresh r
    rw [h]
    exact ⟨handler.writeResponse_body_ne_nil r status dat hc,
      by rw [handler.writeResponse_status r status dat hc]; rfl⟩
  · obtain ⟨status, dat, hc, h⟩ :=
      handler.item_ServeHTTP_shape Marshal i handler.ResponseWriter.fresh r
    rw [h]
    exact ⟨handler.writeResponse_body_ne_nil r status dat hc,
      by rw [handler.writeResponse_status r status dat hc]; rfl⟩
  · intro hs
    have hs2 : ∀ st, handler.ActivityHandlerFn.ValidMethod a r = true →
        handler.ActivityHandlerFn.Storage a r = Except.ok st →
        handler.checkWriteHeaderCode (a (Typer r) r st).2.1 = true := by
      intro st hm hst
      have h := hs st hm hst
      simp only [handler.permitsBody, Bool.and_eq_true] at h
      exact h.1
    exact handler.activity_ServeHTTP_body a r hs2
  · intro st hm hst hc
    rw [handler.activity_ServeHTTP_panics a r st hm hst hc]
    exact ⟨rfl, rfl, rfl⟩

/-- Witness of C8 (amended): a PUT request on which an activity handler succeeds with
status 201, a code that permits a body, and a GET request on which an activity handler
fails with status 0. -/
theorem C8_body_written_witness :
    (∀ st, handler.ActivityHandlerFn.ValidMethod handler.createdActivity
          (handler.requestWith "PUT" handler.sampleRepo) = true →
        handler.ActivityHandlerFn.Storage handler.createdActivity
          (handler.requestWith "PUT" handler.sampleRepo) = Except.ok st →
        handler.permitsBody (handler.createdActivity
          (handler.sampleTyper (handler.requestWith "PUT" handler.sampleRepo))
          (handler.requestWith "PUT" handler.sampleRepo) st).2.1 = true)
    ∧ ((handler.ActivityHandlerFn.ServeHTTP handler.sampleTyper handler.createdActivity
          handler.ResponseWriter.fresh (handler.requestWith "PUT" handler.sampleRepo)).w.body ≠ []
        ↔ ((handler.requestWith "PUT" handler.sampleRepo).Method = handler.MethodGet
            ∨ handler.ActivityHandlerFn.succeeds handler.sampleTyper handler.createdActivity
                (handler.requestWith "PUT" handler.sampleRepo) = true))
    ∧ ((handler.CollectionHandlerFn.ServeHTTP handler.sampleTyper handler.sampleMarshal
          handler.sampleCollectionHandler handler.ResponseWriter.fresh
          (handler.requestWith "PUT" handler.sampleRepo)).w.body ≠ []
        ↔ (handler.requestWith "PUT" handler.sampleRepo).Method = handler.MethodGet)
    ∧ (handler.ActivityHandlerFn.ServeHTTP handler.sampleTyper handler.zeroStatusActivity
          handler.ResponseWriter.fresh (handler.requestWith "GET" handler.sampleRepo)).w.body
        = [] :=
  have hs : ∀ st, handler.ActivityHandlerFn.ValidMethod handler.createdActivity
        (handler.requestWith "PUT" handler.sampleRepo) = true →
      handler.ActivityHandlerFn.Storage handler.createdActivity
        (handler.requestWith "PUT" handler.sampleRepo) = Except.ok st →
      handler.permitsBody (handler.createdActivity
        (handler.sampleTyper (handler.requestWith "PUT" handler.sampleRepo))
        (handler.requestWith "PUT" handler.sampleRepo) st).2.1 = true :=
    fun _ _ _ => by
      show handler.permitsBody 201 = true
      decide
  have h := C8_body_written handler.sampleTyper handler.sampleMarshal handler.createdActivity
    handler.sampleCollectionHandler handler.sampleItemHandler
    (handler.requestWith "PUT" handler.sampleRepo)
  have h0 := C8_body_written handler.sampleTyper handler.sampleMarshal
    handler.zeroStatusActivity handler.sampleCollectionHandler handler.sampleItemHandler
    (handler.requestWith "GET" handler.sampleRepo)
  ⟨hs, (h.2.2.1 hs).1, h.1.1,
    (h0.2.2.2 handler.sampleRepo (by decide) rfl (by decide)).2.2⟩

/-! ## Contextual errors -/

/-- C9: for every contextual error `e` with message `m`, subject IRI `i` and cause `c`,
`e.Error()` is `m`, followed by ": " and the text of `i` exactly when that text is not
empty, followed by ": " and `c.Error()` exactly when the cause is not nil. -/
theorem C9_error_rendering (e : client.err) :
    client.err.Error e
        = e.msg
          ++ (if client.VocabIRI.String e.i = "" then "" else ": " ++ client.VocabIRI.String e.i)
          ++ (match e.err with
              | none => ""
              | some c => ": " ++ c.Error)
    ∧ client.err.Error client.sampleErr = "unable to load: http://example.org/objects/1: not found"
    ∧ client.err.Error (client.err.iri client.sampleErr (client.VocabIRI.mk ""))
        = "unable to load: not found"
    ∧ client.err.Error (client.err.annotate client.sampleErr none)
        = "unable to load: http://example.org/objects/1"
    ∧ client.err.Error
        (client.err.annotate (client.err.iri client.sampleErr (client.VocabIRI.mk "")) none)
        = "unable to load" := by
  refine ⟨?_, by decide, by decide, by decide, by decide⟩
  unfold client.err.Error
  by_cases hi : client.VocabIRI.String e.i = ""
  · cases he : e.err with
    | none => simp [hi]
    | some c => simp [hi, String.append_assoc]
  · cases he : e.err with
    | none => simp [hi, String.append_assoc]
    | some c => simp [hi, String.append_assoc]

/-! ## Zero values of the vocabulary variants -/

/-- C10 (as stated) fails: the zero-valued `Liked`, `LikedCollection` and `Shares` have the
zero type-tag and answer `IsObject()` with true. -/
theorem C10_counterexample_zero_collection_is_object :
    Liked.GetType OrderedCollection.zero = ""
    ∧ Liked.IsObject OrderedCollection.zero = true
    ∧ LikedCollection.IsObject OrderedCollection.zero = true
    ∧ Shares.IsObject OrderedCollection.zero = true
    ∧ ¬ (Liked.IsLink OrderedCollection.zero = false
        ∧ Liked.IsObject OrderedCollection.zero = false) := by
  refine ⟨by decide, by decide, by decide, by decide, by decide⟩

/-- C10 (amended): on the zero-valued `Link` and `Mention`, `GetID`, `GetType`, `IsLink`
and `IsObject` return the empty identifier, the empty type-tag, false and false (the
object-type table not holding the empty type-tag); on the zero-valued `Liked`,
`LikedCollection` and `Shares` they return the empty identifier, the empty type-tag, false
and true; on the zero-valued `ItemCollection`, `GetID`, `IsLink` and `IsObject` return
nil, false and false.  None of these calls panics. -/
theorem C10_zero_values (ValidObjectType : ActivityVocabularyType → Bool)
    (hV : ValidObjectType "" = false) :
    (Link.GetID Link.zero = "" ∧ Link.GetType Link.zero = ""
      ∧ Link.IsLink Link.zero = false ∧ Link.IsObject ValidObjectType Link.zero = false)
    ∧ (Mention.GetID Mention.zero = "" ∧ Mention.GetType Mention.zero = ""
      ∧ Mention.IsLink Mention.zero = false
      ∧ Mention.IsObject ValidObjectType Mention.zero = false)
    ∧ (Liked.GetID OrderedCollection.zero = some "" ∧ Liked.GetType OrderedCollection.zero = ""
      ∧ Liked.IsLink OrderedCollection.zero = false
      ∧ Liked.IsObject OrderedCollection.zero = true)
    ∧ (LikedCollection.GetID OrderedCollection.zero = some ""
      ∧ LikedCollection.GetType OrderedCollection.zero = ""
      ∧ LikedCollection.IsLink OrderedCollection.zero = false
      ∧ LikedCollection.IsObject OrderedCollection.zero = true)
    ∧ (Shares.GetID OrderedCollection.zero = some "" ∧ Shares.GetType OrderedCollection.zero = ""
      ∧ Shares.IsLink OrderedCollection.zero = false
      ∧ Shares.IsObject OrderedCollection.zero = true)
    ∧ (ItemCollection.GetID [] = none ∧ ItemCollection.IsLink [] = false
      ∧ ItemCollection.IsObject [] = false) := by
  refine ⟨⟨rfl, rfl, by decide, ?_⟩, ⟨rfl, rfl, by decide, ?_⟩, ⟨rfl, rfl, rfl, rfl⟩,
    ⟨rfl, rfl, rfl, rfl⟩, ⟨rfl, rfl, rfl, rfl⟩, ⟨rfl, rfl, rfl⟩⟩
  · have h : Link.Typ Link.zero = "" := rfl
    simp only [Link.IsObject, h, hV, Bool.or_false]
    decide
  · have h : Link.Typ Mention.zero = "" := rfl
    simp only [Mention.IsObject, h, hV, Bool.or_false]
    decide

/-- Witness of C10 (amended): an object-type table without the empty type-tag. -/
theorem C10_zero_values_witness :
    sampleValidObjectType "" = false
    ∧ Link.IsObject sampleValidObjectType Link.zero = false
    ∧ Mention.IsLink Mention.zero = false
    ∧ Shares.IsObject OrderedCollection.zero = true :=
  have hV : sampleValidObjectType "" = false := by decide
  have h := C10_zero_values sampleValidObjectType hV
  ⟨hV, h.1.2.2.2, h.2.1.2.2.1, h.2.2.2.2.1.2.2.2⟩

/-! ## Links, mentions and the link / object predicates -/

theorem ValidLinkType_iff (typ : ActivityVocabularyType) :
    ValidLinkType typ = true ↔ typ = "Mention" := by
  simp only [ValidLinkType, validLinkTypes, ValidLinkType.loop, MentionType, beq_iff_eq,
    Bool.if_false_right, Bool.and_true, decide_eq_true_eq]
  exact eq_comm

theorem link_IsLink_iff (l : Link) :
    Link.IsLink l = true ↔ (Link.Typ l = "Link" ∨ Link.Typ l = "Mention") := by
  simp [Link.IsLink, ValidLinkType_iff, LinkType]

theorem mention_IsLink_iff (m : Mention) :
    Mention.IsLink m = true ↔ Link.Typ m = "Mention" := by
  simp [Mention.IsLink, ValidLinkType_iff, MentionType]

/-- C11: `IsLink()` and `IsObject()` are never both true.  For every `Liked`,
`LikedCollection`, `Shares` and `ItemCollection` value this holds unconditionally; for
every `Link` and `Mention` value it holds when `ValidObjectType` accepts neither "Link"
nor "Mention".  A `Link` or `Mention` whose type-tag is "Mention" has `IsLink() == true`
and `IsObject() == false`, whatever its other fields. -/
theorem C11_link_object_exclusive (ValidObjectType : ActivityVocabularyType → Bool)
    (hL : ValidObjectType "Link" = false) (hM : ValidObjectType "Mention" = false)
    (c : OrderedCollection) (ic : ItemCollection) (l : Link) (m : Mention)
    (id : ObjectID) (name : NaturalLanguageValue) (rel : Option Link) (mt : MimeType)
    (h w : Nat) (p : Item) (href : URI) (lang : LangRef) :
    ¬ (Liked.IsLink c = true ∧ Liked.IsObject c = true)
    ∧ ¬ (LikedCollection.IsLink c = true ∧ LikedCollection.IsObject c = true)
    ∧ ¬ (Shares.IsLink c = true ∧ Shares.IsObject c = true)
    ∧ ¬ (ItemCollection.IsLink ic = true ∧ ItemCollection.IsObject ic = true)
    ∧ ¬ (Link.IsLink l = true ∧ Link.IsObject ValidObjectType l = true)
    ∧ ¬ (Mention.IsLink m = true ∧ Mention.IsObject ValidObjectType m = true)
    ∧ (Link.IsLink (Link.mk id "Mention" name rel mt h w p href lang) = true
      ∧ Link.IsObject ValidObjectType (Link.mk id "Mention" name rel mt h w p href lang) = false)
    ∧ (Mention.IsLink (Link.mk id "Mention" name rel mt h w p href lang) = true
      ∧ Mention.IsObject ValidObjectType (Link.mk id "Mention" name rel mt h w p href lang)
          = false) := by
  refine ⟨by simp [Liked.IsLink], by simp [LikedCollection.IsLink], by simp [Shares.IsLink],
    by simp [ItemCollection.IsLink], ?_, ?_, ⟨?_, ?_⟩, ⟨?_, ?_⟩⟩
  · rintro ⟨h1, h2⟩
    rcases (link_IsLink_iff l).1 h1 with ht | ht
    · simp [Link.IsObject, ht, hL, ObjectType] at h2
    · simp [Link.IsObject, ht, hM, ObjectType] at h2
  · rintro ⟨h1, h2⟩
    have ht := (mention_IsLink_iff m).1 h1
    simp [Mention.IsObject, ht, hM, ObjectType] at h2
  · exact (link_IsLink_iff _).2 (Or.inr rfl)
  · simp [Link.IsObject, Link.Typ, hM, ObjectType]
  · exact (mention_IsLink_iff _).2 rfl
  · simp [Mention.IsObject, Link.Typ, hM, ObjectType]

/-- Witness of C11: the sample object-type table, a `Link` tagged "Link" and an
object-shaped payload tagged "Mention". -/
theorem C11_link_object_exclusive_witness :
    sampleValidObjectType "Link" = false
    ∧ sampleValidObjectType "Mention" = false
    ∧ ¬ (Link.IsLink (LinkNew "http://example.org/l" "Link") = true
        ∧ Link.IsObject sampleValidObjectType (LinkNew "http://example.org/l" "Link") = true)
    ∧ Mention.IsObject sampleValidObjectType
        (Link.mk "http://example.org/o" "Mention" [("en", "a note")] none "text/html" 10 20
          sampleItem "http://example.org/target" "en") = false :=
  have hL : sampleValidObjectType "Link" = false := by decide
  have hM : sampleValidObjectType "Mention" = false := by decide
  have h := C11_link_object_exclusive sampleValidObjectType hL hM OrderedCollection.zero []
    (LinkNew "http://example.org/l" "Link") (MentionNew "http://example.org/m")
    "http://example.org/o" [("en", "a note")] none "text/html" 10 20 sampleItem
    "http://example.org/target" "en"
  ⟨hL, hM, h.2.2.2.2.1, h.2.2.2.2.2.2.2.2⟩

/-! ## HTTP handlers: the status written -/

namespace handler

theorem activity_ServeHTTP_status (Typer : Request → CollectionType)
    (a : ActivityHandlerFn) (r : Request) :
    (ActivityHandlerFn.ServeHTTP Typer a ResponseWriter.fresh r).w.status
      = (if ActivityHandlerFn.ValidMethod a r = true then
          (match ActivityHandlerFn.Storage a r with
            | Except.error _ => some StatusOK
            | Except.ok st =>
              if checkWriteHeaderCode (a (Typer r) r st).2.1 = true then
                some (a (Typer r) r st).2.1
              else none)
        else some StatusNotAcceptable) := by
  unfold ActivityHandlerFn.ServeHTTP ActivityHandlerFn.ValidateRequest
  cases hm : ActivityHandlerFn.ValidMethod a r with
  | false => simp [writeResponse_status]
  | true =>
    cases hs : ActivityHandlerFn.Storage a r with
    | error e => simp [writeResponse_status]
    | ok st =>
      rcases hb : a (Typer r) r st with ⟨iri, status, e⟩
      cases hc : checkWriteHeaderCode status with
      | true =>
        cases e with
        | some e => simp [hb, hc, writeResponse_status _ _ _ hc]
        | none =>
          simp only [hb, hc, Bool.not_true, Bool.false_eq_true, if_false, if_true]
          exact (activity_success_writer iri status hc).1
      | false =>
        cases e with
        | some e => simp [hb, hc, writeResponse_panics _ _ _ hc]
        | none =>
          simp only [hb, hc, Bool.not_true, Bool.false_eq_true, if_false, if_true]
          rw [WriteHeader_fresh_panics status hc]
          split_ifs <;> simp [ResponseWriter.Write, ResponseWriter.HeaderSet]

theorem collection_ServeHTTP_status {κ : Type} (Typer : Request → CollectionType)
    (Marshal : κ → String × Option GoError) (c : CollectionHandlerFn κ) (r : Request) :
    (CollectionHandlerFn.ServeHTTP Typer Marshal c ResponseWriter.fresh r).w.status
      = some (if CollectionHandlerFn.ValidMethod c r = true then StatusOK
          else StatusMethodNotAllowed) := by
  unfold CollectionHandlerFn.ServeHTTP CollectionHandlerFn.ValidateRequest
  cases hm : CollectionHandlerFn.ValidMethod c r with
  | false => simp [writeResponse_status]
  | true =>
    simp only [Bool.not_true, Bool.false_eq_true, if_false, if_true]
    repeat' split
    all_goals simp [writeResponse_status]

theorem item_ServeHTTP_status {κ : Type}
    (Marshal : κ → String × Option GoError) (i : ItemHandlerFn κ) (r : Request) :
    (ItemHandlerFn.ServeHTTP Marshal i ResponseWriter.fresh r).w.status
      = some (if ItemHandlerFn.ValidMethod i r = true then StatusOK
          else StatusMethodNotAllowed) := by
  unfold ItemHandlerFn.ServeHTTP ItemHandlerFn.ValidateRequest
  cases hm : ItemHandlerFn.ValidMethod i r with
  | false => simp [writeResponse_status]
  | true =>
    simp only [Bool.not_true, Bool.false_eq_true, if_false, if_true]
    repeat' split
    all_goals simp [writeResponse_status]

end handler

/-- C12 (as stated) fails: an activity handler whose business function returns status 404
with an error, or status 202 with a nil error, writes that status, which is none of 200,
201, 405, 406, 410, 500. -/
theorem C12_counterexample_activity_status_passthrough :
    (handler.ActivityHandlerFn.ServeHTTP handler.sampleTyper handler.notFoundActivity
        handler.ResponseWriter.fresh (handler.requestWith "PUT" handler.sampleRepo)).w.status
      = some 404
    ∧ (handler.ActivityHandlerFn.ServeHTTP handler.sampleTyper handler.acceptedActivity
        handler.ResponseWriter.fresh (handler.requestWith "PUT" handler.sampleRepo)).w.status
      = some 202
    ∧ ¬ ((404 : Int) ∈ handler.statusVocabulary)
    ∧ ¬ ((202 : Int) ∈ handler.statusVocabulary) := by
  refine ⟨by decide, by decide, by decide, by decide⟩

theorem checkWriteHeaderCode_of_mem_statusVocabulary (s : Int)
    (h : s ∈ handler.statusVocabulary) : handler.checkWriteHeaderCode s = true := by
  simp only [handler.statusVocabulary, List.mem_cons, List.mem_singleton, List.mem_nil_iff,
    or_false] at h
  rcases h with h | h | h | h | h | h <;> subst h <;> decide

/-- C12 (amended): across the three handler kinds, for every request and every outcome of
the storage and marshal collaborators, the status written by `ServeHTTP` is one of 200,
201, 405, 406, 410 or 500 provided the business function of the activity handler returns
only statuses of that set.  Under that proviso an activity handler writes 406 when the
method is disallowed, 200 when the method is allowed and storage resolution fails, and
exactly the status its business function returns for the request when the method is
allowed and the storage is resolved (with or without an error); collection and item
handlers write 405 when the method is disallowed and 200 otherwise. -/
theorem C12_status_vocabulary {κ : Type}
    (Typer : handler.Request → handler.CollectionType)
    (Marshal : κ → String × Option GoError)
    (a : handler.ActivityHandlerFn) (c : handler.CollectionHandlerFn κ)
    (i : handler.ItemHandlerFn κ) (r : handler.Request)
    (ha : ∀ t q st, (a t q st).2.1 ∈ handler.statusVocabulary) :
    (handler.ActivityHandlerFn.ValidMethod a r = false →
        (handler.ActivityHandlerFn.ServeHTTP Typer a handler.ResponseWriter.fresh r).w.status
          = some 406)
    ∧ (handler.ActivityHandlerFn.ValidMethod a r = true →
        ∀ e, handler.ActivityHandlerFn.Storage a r = Except.error e →
        (handler.ActivityHandlerFn.ServeHTTP Typer a handler.ResponseWriter.fresh r).w.status
          = some 200)
    ∧ (handler.ActivityHandlerFn.ValidMethod a r = true →
        ∀ st, handler.ActivityHandlerFn.Storage a r = Except.ok st →
        (handler.ActivityHandlerFn.ServeHTTP Typer a handler.ResponseWriter.fresh r).w.status
          = some (a (Typer r) r st).2.1)
    ∧ (∃ s, (handler.ActivityHandlerFn.ServeHTTP Typer a handler.ResponseWriter.fresh r).w.status
          = some s
        ∧ s ∈ handler.statusVocabulary)
    ∧ (handler.CollectionHandlerFn.ServeHTTP Typer Marshal c
          handler.ResponseWriter.fresh r).w.status
        = some (if handler.CollectionHandlerFn.ValidMethod c r = true then 200 else 405)
    ∧ (∃ s, (handler.CollectionHandlerFn.ServeHTTP Typer Marshal c
          handler.ResponseWriter.fresh r).w.status = some s
        ∧ s ∈ handler.statusVocabulary)
    ∧ (handler.ItemHandlerFn.ServeHTTP Marshal i handler.ResponseWriter.fresh r).w.status
        = some (if handler.ItemHandlerFn.ValidMethod i r = true then 200 else 405)
    ∧ (∃ s, (handler.ItemHandlerFn.ServeHTTP Marshal i handler.ResponseWriter.fresh r).w.status
          = some s
        ∧ s ∈ handler.statusVocabulary) := by
  have hA := handler.activity_ServeHTTP_status Typer a r
  have hC := handler.collection_ServeHTTP_status Typer Marshal c r
  have hI := handler.item_ServeHTTP_status Marshal i r
  have h1 : handler.ActivityHandlerFn.ValidMethod a r = false →
      (handler.ActivityHandlerFn.ServeHTTP Typer a handler.ResponseWriter.fresh r).w.status
        = some 406 := by
    intro hm
    rw [hA, hm]
    rfl
  have h2 : handler.ActivityHandlerFn.ValidMethod a r = true →
      ∀ e, handler.ActivityHandlerFn.Storage a r = Except.error e →
      (handler.ActivityHandlerFn.ServeHTTP Typer a handler.ResponseWriter.fresh r).w.status
        = some 200 := by
    intro hm e hs
    rw [hA, hm, hs]
    rfl
  have h3 : handler.ActivityHandlerFn.ValidMethod a r = true →
      ∀ st, handler.ActivityHandlerFn.Storage a r = Except.ok st →
      (handler.ActivityHandlerFn.ServeHTTP Typer a handler.ResponseWriter.fresh r).w.status
        = some (a (Typer r) r st).2.1 := by
    intro hm st hs
    have hc := checkWriteHeaderCode_of_mem_statusVocabulary _ (ha (Typer r) r st)
    rw [hA, hm, hs]
    simp only [if_true, hc]
  refine ⟨h1, h2, h3, ?_, hC, ?_, hI, ?_⟩
  · cases hm : handler.ActivityHandlerFn.ValidMethod a r with
    | false => exact ⟨406, h1 hm, by decide⟩
    | true =>
      cases hs : handler.ActivityHandlerFn.Storage a r with
      | error e => exact ⟨200, h2 hm e hs, by decide⟩
      | ok st => exact ⟨_, h3 hm st hs, ha _ _ _⟩
  · refine ⟨_, hC, ?_⟩
    cases handler.CollectionHandlerFn.ValidMethod c r <;> decide
  · refine ⟨_, hI, ?_⟩
    cases handler.ItemHandlerFn.ValidMethod i r <;> decide

/-- Witness of C12 (amended): an activity handler that always returns 201, on a PUT request
with a store in the context. -/
theorem C12_status_vocabulary_witness :
    (∀ t q st, (handler.createdActivity t q st).2.1 ∈ handler.statusVocabulary)
    ∧ (handler.ActivityHandlerFn.ServeHTTP handler.sampleTyper handler.createdActivity
          handler.ResponseWriter.fresh (handler.requestWith "PUT" handler.sampleRepo)).w.status
        = some 201
    ∧ (201 : Int) ∈ handler.statusVocabulary :=
  have ha : ∀ t q st, (handler.createdActivity t q st).2.1 ∈ handler.statusVocabulary :=
    fun _ _ _ => by
      show (201 : Int) ∈ handler.statusVocabulary
      decide
  have h := C12_status_vocabulary handler.sampleTyper handler.sampleMarshal
    handler.createdActivity handler.sampleCollectionHandler handler.sampleItemHandler
    (handler.requestWith "PUT" handler.sampleRepo) ha
  ⟨ha, h.2.2.1 (by decide) handler.sampleRepo rfl, by decide⟩

/-! ## `ItemCollection.Append`: the elements of the receiver -/

theorem foldl_set_range (f : Nat → Item) :
    ∀ (n : Nat) (arr : List Item), n ≤ arr.length →
      (List.range n).foldl (fun acc k => acc.set k (f k)) arr
        = (List.range n).map f ++ arr.drop n := by
  intro n
  induction n with
  | zero => intro arr _; simp
  | succ n ih =>
    intro arr hn
    have hlt : n < arr.length := by omega
    rw [List.range_succ, List.foldl_append, ih arr (by omega)]
    simp only [List.foldl_cons, List.foldl_nil, List.map_append, List.map_cons, List.map_nil]
    rw [List.set_append_right _ _ (by simp)]
    simp only [List.length_map, List.length_range, Nat.sub_self, List.append_assoc,
      List.singleton_append]
    rw [List.drop_eq_getElem_cons hlt]
    rfl

theorem Mem.write_getElem?_self (m : Mem) (a k : Nat) (v : Item) (h : a < m.length) :
    (Mem.write m a k v)[a]? = some ((m.getD a []).set k v) := by
  simp [Mem.write, List.getElem?_set_self, h]

theorem Slice.get_write_ne (m : Mem) (s : Slice) (a k j : Nat) (v : Item) (h : a ≠ s.arr) :
    Slice.get (Mem.write m a k v) s j = Slice.get m s j := by
  simp only [Slice.get, Mem.read, List.getD_eq_getElem?_getD, Mem.write_getElem?_ne _ _ _ _ _ h]

theorem ItemCollection.copyLoop_dst (src d : Slice) (hne : d.arr ≠ src.arr) :
    ∀ (ks : List Nat) (m : Mem), d.arr < m.length →
      (ItemCollection.copyLoop src d ks m)[d.arr]?
        = some (ks.foldl (fun acc k => acc.set (d.off + k) (Slice.get m src k))
            (m.getD d.arr [])) := by
  intro ks
  induction ks with
  | nil =>
    intro m h
    simp [ItemCollection.copyLoop, List.getD_eq_getElem?_getD, List.getElem?_eq_getElem h]
  | cons k ks ih =>
    intro m h
    have h2 : d.arr < (Slice.put m d k (Slice.get m src k)).length := by
      simp only [Slice.put, Mem.write_length]; exact h
    simp only [ItemCollection.copyLoop, List.foldl_cons]
    rw [ih _ h2]
    have hfun : (fun (acc : List Item) (j : Nat) =>
          acc.set (d.off + j) (Slice.get (Slice.put m d k (Slice.get m src k)) src j))
        = (fun (acc : List Item) (j : Nat) => acc.set (d.off + j) (Slice.get m src j)) := by
      funext acc j
      simp only [Slice.put, Slice.get_write_ne _ _ _ _ _ _ hne]
    rw [hfun]
    have harr : (Slice.put m d k (Slice.get m src k)).getD d.arr []
        = (m.getD d.arr []).set (d.off + k) (Slice.get m src k) := by
      simp only [Slice.put, List.getD_eq_getElem?_getD (Mem.write _ _ _ _),
        Mem.write_getElem?_self _ _ _ _ h, Option.getD_some]
    rw [harr]

theorem getD_range_map (l : List Item) :
    (List.range l.length).map (fun k => l.getD k none) = l := by
  apply List.ext_getElem
  · simp
  · intro n h1 h2
    simp [List.getD_eq_getElem?_getD, List.getElem?_eq_getElem h2]

theorem ItemCollection.copyLoop_fresh (m : Mem) (i : Slice) (h : i.len = 0 ∨ i.arr < m.length) :
    (ItemCollection.copyLoop i (Mem.make m (i.len + 1)).2 (List.range i.len)
        (Mem.make m (i.len + 1)).1)[m.length]?
      = some (Slice.view m i ++ [none]) := by
  rcases h with h0 | harr
  · simp [h0, Mem.make, ItemCollection.copyLoop, Slice.view]
  · have hne : (Mem.make m (i.len + 1)).2.arr ≠ i.arr := by
      simp only [Mem.make]; omega
    have hlen : (Mem.make m (i.len + 1)).2.arr < (Mem.make m (i.len + 1)).1.length := by
      simp [Mem.make]
    have h1 := ItemCollection.copyLoop_dst i (Mem.make m (i.len + 1)).2 hne
      (List.range i.len) (Mem.make m (i.len + 1)).1 hlen
    have harr0 : (Mem.make m (i.len + 1)).1.getD (Mem.make m (i.len + 1)).2.arr []
        = List.replicate (i.len + 1) none := by
      simp [Mem.make, List.getD_eq_getElem?_getD]
    have hfun : (fun (acc : List Item) (k : Nat) =>
          acc.set ((Mem.make m (i.len + 1)).2.off + k)
            (Slice.get (Mem.make m (i.len + 1)).1 i k))
        = (fun (acc : List Item) (k : Nat) => acc.set k (Slice.get m i k)) := by
      funext acc k
      have hg : (Mem.make m (i.len + 1)).1[i.arr]? = m[i.arr]? := by
        simp only [Mem.make]
        exact List.getElem?_append_left harr
      simp only [Slice.get, Mem.read, List.getD_eq_getElem?_getD, hg]
      simp [Mem.make]
    rw [harr0, hfun, foldl_set_range _ _ _ (by simp)] at h1
    have harrEq : (Mem.make m (i.len + 1)).2.arr = m.length := rfl
    rw [harrEq] at h1
    rw [h1]
    have hdrop : List.drop i.len (List.replicate (i.len + 1) (none : Item)) = [none] := by
      simp [List.drop_replicate]
    rw [hdrop]
    rfl

theorem ItemCollection.Append_dst (m : Mem) (i : Slice) (o : Item)
    (h : i.len = 0 ∨ i.arr < m.length) :
    (ItemCollection.Append m i o).1[m.length]? = some (Slice.view m i ++ [o]) := by
  have h1 := ItemCollection.copyLoop_fresh m i h
  have hlen : m.length
      < (ItemCollection.copyLoop i (Mem.make m (i.len + 1)).2 (List.range i.len)
          (Mem.make m (i.len + 1)).1).length := by
    simp [ItemCollection.copyLoop_length, Mem.make]
  have h2 := Mem.write_getElem?_self _ m.length (0 + i.len) o hlen
  simp only [List.getD_eq_getElem?_getD, h1, Option.getD_some] at h2
  have hset : (Slice.view m i ++ [none]).set (0 + i.len) o = Slice.view m i ++ [o] := by
    rw [List.set_append_right _ _ (by simp [Slice.view_length])]
    simp [Slice.view_length]
  rw [hset] at h2
  exact h2

theorem ItemCollection.Append_view (m : Mem) (i : Slice) (o : Item)
    (h : i.len = 0 ∨ i.arr < m.length) :
    Slice.view (ItemCollection.Append m i o).1 (ItemCollection.Append m i o).2.1
      = Slice.view m i ++ [o] := by
  have hd := ItemCollection.Append_dst m i o h
  have hhdr : (ItemCollection.Append m i o).2.1
      = { arr := m.length, off := 0, len := i.len + 1, cap := i.len + 1 } := rfl
  have hget : Slice.get (ItemCollection.Append m i o).1 (ItemCollection.Append m i o).2.1
      = fun k => (Slice.view m i ++ [o]).getD k none := by
    funext k
    rw [hhdr]
    simp only [Slice.get, Mem.read, List.getD_eq_getElem?_getD, hd, Option.getD_some,
      Nat.zero_add]
  have hl : (Slice.view m i ++ [o]).length = i.len + 1 := by
    simp [Slice.view_length]
  have hg := getD_range_map (Slice.view m i ++ [o])
  rw [hl] at hg
  have hlen : (ItemCollection.Append m i o).2.1.len = i.len + 1 := rfl
  unfold Slice.view at hg ⊢
  rw [hget, hlen]
  exact hg

/-- C13: for every memory `m`, well-formed slice header `i` (the `ItemCollection` `c` the
receiver points to) and item `o`, `ItemCollection.Append(o)` returns nil and leaves the
receiver denoting `c` followed by `o`: its length is `len(c) + 1`, its first `len(c)`
elements are those of `c` in order (duplicates kept), and its last element is `o`. -/
theorem C13_append_elements (m : Mem) (i : Slice) (o : Item) (hv : Slice.Valid m i) :
    (ItemCollection.Append m i o).2.2 = none
    ∧ Slice.view (ItemCollection.Append m i o).1 (ItemCollection.Append m i o).2.1
        = Slice.view m i ++ [o]
    ∧ (Slice.view (ItemCollection.Append m i o).1 (ItemCollection.Append m i o).2.1).length
        = (Slice.view m i).length + 1
    ∧ (Slice.view (ItemCollection.Append m i o).1 (ItemCollection.Append m i o).2.1).take
        (Slice.view m i).length = Slice.view m i
    ∧ (Slice.view (ItemCollection.Append m i o).1
        (ItemCollection.Append m i o).2.1)[(Slice.view m i).length]? = some o := by
  have h : i.len = 0 ∨ i.arr < m.length := by
    rcases hv with ⟨hle, hcap | ⟨harr, _⟩⟩
    · left; omega
    · right; exact harr
  have hview := ItemCollection.Append_view m i o h
  refine ⟨rfl, hview, ?_, ?_, ?_⟩
  · rw [hview]; simp
  · rw [hview]; simp
  · rw [hview]; simp

/-- Witness of C13: appending an item that is already in the collection. -/
theorem C13_append_elements_witness :
    Slice.Valid sampleMem sampleSlice
    ∧ Slice.view sampleMem sampleSlice = [sampleItem, none]
    ∧ Slice.view (ItemCollection.Append sampleMem sampleSlice sampleItem).1
        (ItemCollection.Append sampleMem sampleSlice sampleItem).2.1
        = [sampleItem, none, sampleItem] :=
  have hv : Slice.Valid sampleMem sampleSlice := by
    simp [Slice.Valid, sampleMem, sampleSlice]
  have h := C13_append_elements sampleMem sampleSlice sampleItem hv
  ⟨hv, rfl, by rw [h.2.1]; rfl⟩

/-- C14: `First()` is total.  It is nil for the zero-length collection and the first
element otherwise; so it is nil exactly when the collection has length 0 or its first
element is itself nil, and a nil result does not establish emptiness. -/
theorem C14_First_total (col : ItemCollection) (x : Item) (rest : ItemCollection) :
    ItemCollection.First [] = none
    ∧ ItemCollection.First (x :: rest) = x
    ∧ (ItemCollection.First col = none ↔ (col.length = 0 ∨ col[0]? = some none))
    ∧ (ItemCollection.First col = (col[0]?).getD none)
    ∧ (ItemCollection.First (none :: rest) = none ∧ (none :: rest).length ≠ 0) := by
  refine ⟨rfl, by simp [ItemCollection.First], ?_, ?_, ⟨by simp [ItemCollection.First], by simp⟩⟩
  · cases col with
    | nil => simp [ItemCollection.First]
    | cons y ys => simp [ItemCollection.First]
  · cases col with
    | nil => simp [ItemCollection.First]
    | cons y ys => simp [ItemCollection.First]

/-! ## Constructors and accessors -/

/-- C15: for every `id` and type-tag `typ`, `LinkNew(id, typ)` is the `Link` whose `ID` is
`id`, whose `Type` is `typ` when `ValidLinkType(typ)` (that is, when `typ` is "Mention")
and "Link" otherwise, and whose other fields are zero; `IsLink()` is true for every
result of `LinkNew`. -/
theorem C15_LinkNew (id : ObjectID) (typ : ActivityVocabularyType) :
    LinkNew id typ
        = Link.mk id (if ValidLinkType typ = true then typ else "Link") [] none "" 0 0 none "" ""
    ∧ (ValidLinkType typ = true ↔ typ = "Mention")
    ∧ Link.ID (LinkNew id typ) = id
    ∧ Link.Typ (LinkNew id typ) = (if typ = "Mention" then "Mention" else "Link")
    ∧ Link.IsLink (LinkNew id typ) = true := by
  have hv := ValidLinkType_iff typ
  by_cases h : typ = "Mention"
  · subst h
    have hvt : ValidLinkType "Mention" = true := by decide
    refine ⟨?_, hv, rfl, ?_, ?_⟩
    · simp [LinkNew, hvt]
    · simp [LinkNew, hvt, Link.Typ]
    · apply (link_IsLink_iff _).2
      right
      simp [LinkNew, hvt, Link.Typ]
  · have hvf : ValidLinkType typ = false := by
      cases hc : ValidLinkType typ with
      | false => rfl
      | true => exact absurd (hv.1 hc) h
    refine ⟨?_, hv, rfl, ?_, ?_⟩
    · simp [LinkNew, hvf, LinkType]
    · simp [LinkNew, hvf, Link.Typ, h, LinkType]
    · apply (link_IsLink_iff _).2
      left
      simp [LinkNew, hvf, Link.Typ, LinkType]

/-- C16: for every contextual error `e` and cause `c`, `e.annotate(c).Unwrap()` is `c` and
`e.annotate(c)` keeps the message and the IRI of `e`; for every IRI `i`, `e.iri(i)` has
IRI `i` and keeps the message and the cause of `e`, so `Unwrap` is unchanged; an error
built by `errf` alone unwraps to nil.  Both methods have value receivers and return a
new value: `e` is the same before and after. -/
theorem C16_annotate_iri_unwrap (e : client.err) (c : Option GoError) (i : client.VocabIRI)
    (sprintf : String → List String → String) (msg : String) (p : List String) :
    client.err.Unwrap (client.err.annotate e c) = c
    ∧ (client.err.annotate e c).msg = e.msg
    ∧ (client.err.annotate e c).i = e.i
    ∧ (client.err.iri e i).i = i
    ∧ (client.err.iri e i).msg = e.msg
    ∧ (client.err.iri e i).err = e.err
    ∧ client.err.Unwrap (client.err.iri e i) = client.err.Unwrap e
    ∧ client.err.Unwrap (client.err.iri (client.err.annotate e c) i) = c
    ∧ client.err.Unwrap (client.errf sprintf msg p) = none
    ∧ client.err.Unwrap (client.err.iri (client.errf sprintf msg p) i) = none
    ∧ (client.errf sprintf msg p).msg = sprintf msg p :=
  ⟨rfl, rfl, rfl, rfl, rfl, rfl, rfl, rfl, rfl, rfl, rfl⟩

/-- C17: method allow-lists.  `CollectionHandlerFn.ValidMethod` is true iff the method is
GET or HEAD; `ItemHandlerFn.ValidMethod` is true iff it is neither GET nor HEAD;
`ActivityHandlerFn.ValidMethod` is true iff it is not POST.  Each `ValidateRequest`
returns `(200, nil)` iff `ValidMethod` is true, and otherwise a non-nil error whose text
is "invalid HTTP method " followed by the method (with status 406 for activity handlers
and 405 for collection and item handlers). -/
theorem C17_method_allow_lists {κ : Type} (a : handler.ActivityHandlerFn)
    (c : handler.CollectionHandlerFn κ) (i : handler.ItemHandlerFn κ) (r : handler.Request) :
    (handler.CollectionHandlerFn.ValidMethod c r = true ↔ (r.Method = "GET" ∨ r.Method = "HEAD"))
    ∧ (handler.ItemHandlerFn.ValidMethod i r = true ↔ (r.Method ≠ "GET" ∧ r.Method ≠ "HEAD"))
    ∧ (handler.ActivityHandlerFn.ValidMethod a r = true ↔ r.Method ≠ "POST")
    ∧ (handler.ActivityHandlerFn.ValidateRequest a r = (200, none)
        ↔ handler.ActivityHandlerFn.ValidMethod a r = true)
    ∧ (handler.CollectionHandlerFn.ValidateRequest c r = (200, none)
        ↔ handler.CollectionHandlerFn.ValidMethod c r = true)
    ∧ (handler.ItemHandlerFn.ValidateRequest i r = (200, none)
        ↔ handler.ItemHandlerFn.ValidMethod i r = true)
    ∧ handler.ActivityHandlerFn.ValidateRequest a r
        = (if handler.ActivityHandlerFn.ValidMethod a r = true then (200, none)
          else (406, some (GoError.mk ("invalid HTTP method " ++ r.Method))))
    ∧ handler.CollectionHandlerFn.ValidateRequest c r
        = (if handler.CollectionHandlerFn.ValidMethod c r = true then (200, none)
          else (405, some (GoError.mk ("invalid HTTP method " ++ r.Method))))
    ∧ handler.ItemHandlerFn.ValidateRequest i r
        = (if handler.ItemHandlerFn.ValidMethod i r = true then (200, none)
          else (405, some (GoError.mk ("invalid HTTP method " ++ r.Method))))
    ∧ (GoError.mk ("invalid HTTP method " ++ r.Method)).Error
        = "invalid HTTP method " ++ r.Method := by
  refine ⟨?_, ?_, ?_, ?_, ?_, ?_, ?_, ?_, ?_, rfl⟩
  · simp [handler.CollectionHandlerFn.ValidMethod, handler.MethodGet, handler.MethodHead]
  · simp [handler.ItemHandlerFn.ValidMethod, handler.MethodGet, handler.MethodHead]
  · simp [handler.ActivityHandlerFn.ValidMethod, handler.MethodPost]
  · cases h : handler.ActivityHandlerFn.ValidMethod a r <;>
      simp [handler.ActivityHandlerFn.ValidateRequest, h, handler.StatusOK,
        handler.StatusNotAcceptable]
  · cases h : handler.CollectionHandlerFn.ValidMethod c r <;>
      simp [handler.CollectionHandlerFn.ValidateRequest, h, handler.StatusOK,
        handler.StatusMethodNotAllowed]
  · cases h : handler.ItemHandlerFn.ValidMethod i r <;>
      simp [handler.ItemHandlerFn.ValidateRequest, h, handler.StatusOK,
        handler.StatusMethodNotAllowed]
  · cases h : handler.ActivityHandlerFn.ValidMethod a r <;>
      simp [handler.ActivityHandlerFn.ValidateRequest, h, handler.StatusOK,
        handler.StatusNotAcceptable, handler.invalidMethod]
  · cases h : handler.CollectionHandlerFn.ValidMethod c r <;>
      simp [handler.CollectionHandlerFn.ValidateRequest, h, handler.StatusOK,
        handler.StatusMethodNotAllowed, handler.invalidMethod]
  · cases h : handler.ItemHandlerFn.ValidMethod i r <;>
      simp [handler.ItemHandlerFn.ValidateRequest, h, handler.StatusOK,
        handler.StatusMethodNotAllowed, handler.invalidMethod]

/-- C18: the constructors return their defaults: `LikedNew()` has `ID` "liked" and
`SharesNew()` has `ID` "Shares"; both have type-tag "Collection", `TotalItems == 0`, no
ordered items, and `Name`, `Content` and `Summary` of length 0. -/
theorem C18_constructor_defaults :
    (LikedNew.ID = "liked" ∧ LikedNew.Typ = "Collection" ∧ LikedNew.TotalItems = 0
      ∧ LikedNew.OrderedItems = [] ∧ LikedNew.OrderedItems.length = 0
      ∧ LikedNew.Name.length = 0 ∧ LikedNew.Content.length = 0 ∧ LikedNew.Summary.length = 0)
    ∧ (SharesNew.ID = "Shares" ∧ SharesNew.Typ = "Collection" ∧ SharesNew.TotalItems = 0
      ∧ SharesNew.OrderedItems = [] ∧ SharesNew.OrderedItems.length = 0
      ∧ SharesNew.Name.length = 0 ∧ SharesNew.Content.length = 0
      ∧ SharesNew.Summary.length = 0) :=
  ⟨⟨rfl, rfl, rfl, rfl, rfl, rfl, rfl, rfl⟩, ⟨rfl, rfl, rfl, rfl, rfl, rfl, rfl, rfl⟩⟩

/-- C19: for every `LikedCollection`, `Liked` and `Shares` value `l`, `GetType()` is
`l.Type`, `GetLink()` is `IRI(l.ID)` and `GetID()` points to `l.ID`; on the zero value
`GetType()` and `GetID()` are empty; after `l.ID = id` or `l.Type = t` the accessors
return `id` and `t`. -/
theorem C19_accessors (l : OrderedCollection) (id : ObjectID) (t : ActivityVocabularyType) :
    (LikedCollection.GetType l = l.Typ ∧ LikedCollection.GetLink l = l.ID
      ∧ LikedCollection.GetID l = some l.ID
      ∧ LikedCollection.GetType OrderedCollection.zero = ""
      ∧ LikedCollection.GetID OrderedCollection.zero = some ""
      ∧ LikedCollection.GetID { l with ID := id } = some id
      ∧ LikedCollection.GetLink { l with ID := id } = id
      ∧ LikedCollection.GetType { l with Typ := t } = t)
    ∧ (Liked.GetType l = l.Typ ∧ Liked.GetLink l = l.ID
      ∧ Liked.GetID l = some l.ID
      ∧ Liked.GetType OrderedCollection.zero = ""
      ∧ Liked.GetID OrderedCollection.zero = some ""
      ∧ Liked.GetID { l with ID := id } = some id
      ∧ Liked.GetLink { l with ID := id } = id
      ∧ Liked.GetType { l with Typ := t } = t)
    ∧ (Shares.GetType l = l.Typ ∧ Shares.GetLink l = l.ID
      ∧ Shares.GetID l = some l.ID
      ∧ Shares.GetType OrderedCollection.zero = ""
      ∧ Shares.GetID OrderedCollection.zero = some ""
      ∧ Shares.GetID { l with ID := id } = some id
      ∧ Shares.GetLink { l with ID := id } = id
      ∧ Shares.GetType { l with Typ := t } = t) :=
  ⟨⟨rfl, rfl, rfl, rfl, rfl, rfl, rfl, rfl⟩, ⟨rfl, rfl, rfl, rfl, rfl, rfl, rfl, rfl⟩,
    ⟨rfl, rfl, rfl, rfl, rfl, rfl, rfl, rfl⟩⟩

/-! ## Collection and item handlers: errors are written with status 200 -/

namespace handler

theorem collection_ServeHTTP_body {κ : Type} (Typer : Request → CollectionType)
    (Marshal : κ → String × Option GoError) (c : CollectionHandlerFn κ) (r : Request)
    (hget : r.Method = MethodGet) :
    (∀ e, CollectionHandlerFn.Storage c r = Except.error e →
        (CollectionHandlerFn.ServeHTTP Typer Marshal c ResponseWriter.fresh r).w.body
          = [e.Error])
    ∧ (∀ st x e, CollectionHandlerFn.Storage c r = Except.ok st →
        c (Typer r) r st = (x, some e) →
        (CollectionHandlerFn.ServeHTTP Typer Marshal c ResponseWriter.fresh r).w.body
          = [e.Error])
    ∧ (∀ st col x e, CollectionHandlerFn.Storage c r = Except.ok st →
        c (Typer r) r st = (col, none) → Marshal col = (x, some e) →
        (CollectionHandlerFn.ServeHTTP Typer Marshal c ResponseWriter.fresh r).w.body
          = [e.Error]) := by
  have hm : CollectionHandlerFn.ValidMethod c r = true := by
    simp [CollectionHandlerFn.ValidMethod, hget]
  refine ⟨?_, ?_, ?_⟩
  · intro e hs
    simp [CollectionHandlerFn.ServeHTTP, CollectionHandlerFn.ValidateRequest, hm, hs,
      writeResponse_body, hget]
  · intro st x e hs hb
    simp [CollectionHandlerFn.ServeHTTP, CollectionHandlerFn.ValidateRequest, hm, hs, hb,
      writeResponse_body, hget]
  · intro st col x e hs hb hmar
    simp [CollectionHandlerFn.ServeHTTP, CollectionHandlerFn.ValidateRequest, hm, hs, hb, hmar,
      writeResponse_body, hget]

end handler

/-- C20: collection and item handlers never answer with an internal-error status.  For
every request, `ServeHTTP` on a fresh response writer writes status 405 when the method is
disallowed and status 200 in every other case, whatever storage resolution, the business
function and the marshaller return; when one of these fails for a GET request to a
collection handler, the error text is the body of the 200 response, and a request an item
handler accepts gets no body. -/
theorem C20_errors_written_as_200 {κ : Type}
    (Typer : handler.Request → handler.CollectionType)
    (Marshal : κ → String × Option GoError)
    (c : handler.CollectionHandlerFn κ) (i : handler.ItemHandlerFn κ) (r : handler.Request) :
    (handler.CollectionHandlerFn.ServeHTTP Typer Marshal c handler.ResponseWriter.fresh r).w.status
        = some (if handler.CollectionHandlerFn.ValidMethod c r = true then 200 else 405)
    ∧ (handler.ItemHandlerFn.ServeHTTP Marshal i handler.ResponseWriter.fresh r).w.status
        = some (if handler.ItemHandlerFn.ValidMethod i r = true then 200 else 405)
    ∧ (handler.CollectionHandlerFn.ServeHTTP Typer Marshal c
        handler.ResponseWriter.fresh r).w.status ≠ some 500
    ∧ (handler.ItemHandlerFn.ServeHTTP Marshal i handler.ResponseWriter.fresh r).w.status
        ≠ some 500
    ∧ (r.Method = "GET" →
        (∀ e, handler.CollectionHandlerFn.Storage c r = Except.error e →
          (handler.CollectionHandlerFn.ServeHTTP Typer Marshal c
            handler.ResponseWriter.fresh r).w.body = [e.Error])
        ∧ (∀ st x e, handler.CollectionHandlerFn.Storage c r = Except.ok st →
          c (Typer r) r st = (x, some e) →
          (handler.CollectionHandlerFn.ServeHTTP Typer Marshal c
            handler.ResponseWriter.fresh r).w.body = [e.Error])
        ∧ (∀ st col x e, handler.CollectionHandlerFn.Storage c r = Except.ok st →
          c (Typer r) r st = (col, none) → Marshal col = (x, some e) →
          (handler.CollectionHandlerFn.ServeHTTP Typer Marshal c
            handler.ResponseWriter.fresh r).w.body = [e.Error]))
    ∧ (handler.ItemHandlerFn.ValidMethod i r = true →
        (handler.ItemHandlerFn.ServeHTTP Marshal i handler.ResponseWriter.fresh r).w.body = []) := by
  have hc := handler.collection_ServeHTTP_status Typer Marshal c r
  have hi := handler.item_ServeHTTP_status Marshal i r
  refine ⟨hc, hi, ?_, ?_, ?_, ?_⟩
  · rw [hc]
    cases handler.CollectionHandlerFn.ValidMethod c r <;>
      simp [handler.StatusOK, handler.StatusMethodNotAllowed]
  · rw [hi]
    cases handler.ItemHandlerFn.ValidMethod i r <;>
      simp [handler.StatusOK, handler.StatusMethodNotAllowed]
  · intro hget
    exact handler.collection_ServeHTTP_body Typer Marshal c r hget
  · intro hm
    have hne : r.Method ≠ handler.MethodGet := by
      intro hg
      simp [handler.ItemHandlerFn.ValidMethod, hg] at hm
    obtain ⟨status, dat, hcode, h⟩ :=
      handler.item_ServeHTTP_shape Marshal i handler.ResponseWriter.fresh r
    rw [h, handler.writeResponse_body r status dat hcode]
    simp [hne]

/-- Witness of C20: a GET request to collection handlers whose storage is missing, whose
business function fails and whose marshaller fails, and a DELETE request to an item
handler whose marshaller fails. -/
theorem C20_errors_written_as_200_witness :
    (handler.CollectionHandlerFn.ServeHTTP handler.sampleTyper handler.failingMarshal
        handler.sampleCollectionHandler handler.ResponseWriter.fresh
        (handler.requestWith "GET" handler.sampleRepo)).w.status = some 200
    ∧ (handler.CollectionHandlerFn.ServeHTTP handler.sampleTyper handler.failingMarshal
        handler.sampleCollectionHandler handler.ResponseWriter.fresh
        (handler.requestWith "GET" handler.sampleRepo)).w.body = ["marshal failed"]
    ∧ (handler.CollectionHandlerFn.ServeHTTP handler.sampleTyper handler.sampleMarshal
        handler.failingCollectionHandler handler.ResponseWriter.fresh
        (handler.requestWith "GET" handler.sampleRepo)).w.body = ["load failed"]
    ∧ (handler.CollectionHandlerFn.ServeHTTP handler.sampleTyper handler.sampleMarshal
        handler.sampleCollectionHandler handler.ResponseWriter.fresh
        (handler.requestNoRepo "GET")).w.body = ["unable to load storage from context"]
    ∧ (handler.ItemHandlerFn.ServeHTTP handler.failingMarshal handler.sampleItemHandler
        handler.ResponseWriter.fresh (handler.requestWith "DELETE" handler.sampleRepo)).w.status
        = some 200
    ∧ (handler.ItemHandlerFn.ServeHTTP handler.failingMarshal handler.sampleItemHandler
        handler.ResponseWriter.fresh (handler.requestWith "DELETE" handler.sampleRepo)).w.body
        = [] :=
  have h1 := C20_errors_written_as_200 handler.sampleTyper handler.failingMarshal
    handler.sampleCollectionHandler handler.sampleItemHandler
    (handler.requestWith "GET" handler.sampleRepo)
  have h2 := C20_errors_written_as_200 handler.sampleTyper handler.sampleMarshal
    handler.failingCollectionHandler handler.sampleItemHandler
    (handler.requestWith "GET" handler.sampleRepo)
  have h3 := C20_errors_written_as_200 handler.sampleTyper handler.sampleMarshal
    handler.sampleCollectionHandler handler.sampleItemHandler (handler.requestNoRepo "GET")
  have h4 := C20_errors_written_as_200 handler.sampleTyper handler.failingMarshal
    handler.sampleCollectionHandler handler.sampleItemHandler
    (handler.requestWith "DELETE" handler.sampleRepo)
  ⟨h1.1,
   (h1.2.2.2.2.1 rfl).2.2 handler.sampleRepo "collection" "" (GoError.mk "marshal failed")
     rfl rfl rfl,
   (h2.2.2.2.2.1 rfl).2.1 handler.sampleRepo "" (GoError.mk "load failed") rfl rfl,
   (h3.2.2.2.2.1 rfl).1 handler.storageUnavailable rfl,
   h4.2.1,
   h4.2.2.2.2.2 (by decide)⟩

/-! ## The link type-check of `Mention` -/

/-- C21: for every `Mention` `m`, `m.IsLink()` is true iff `m.Type` is "Mention" or
`ValidLinkType(m.Type)`, which holds only for the type-tag "Mention".  A `Mention` whose
type-tag is "Link" has `IsLink() == false`, whereas a `Link` with the same fields has
`IsLink() == true`.  `MentionNew(id)` has `ID` `id`, `Type` "Mention", every other field
zero, and `IsLink() == true`. -/
theorem C21_Mention_IsLink (m : Mention) (id : ObjectID) (name : NaturalLanguageValue)
    (rel : Option Link) (mt : MimeType) (h w : Nat) (p : Item) (href : URI) (lang : LangRef) :
    (Mention.IsLink m = true
        ↔ (Mention.GetType m = "Mention" ∨ ValidLinkType (Mention.GetType m) = true))
    ∧ (Mention.IsLink m = true ↔ Mention.GetType m = "Mention")
    ∧ Mention.IsLink (Link.mk id "Link" name rel mt h w p href lang) = false
    ∧ Link.IsLink (Link.mk id "Link" name rel mt h w p href lang) = true
    ∧ MentionNew id = Link.mk id "Mention" [] none "" 0 0 none "" ""
    ∧ Mention.GetID (MentionNew id) = id
    ∧ Mention.GetType (MentionNew id) = "Mention"
    ∧ Mention.IsLink (MentionNew id) = true := by
  refine ⟨?_, mention_IsLink_iff m, ?_, ?_, rfl, rfl, rfl, ?_⟩
  · simp [Mention.IsLink, Mention.GetType, MentionType]
  · cases hb : Mention.IsLink (Link.mk id "Link" name rel mt h w p href lang) with
    | false => rfl
    | true =>
      have ht := (mention_IsLink_iff _).1 hb
      simp [Link.Typ] at ht
  · exact (link_IsLink_iff _).2 (Or.inl rfl)
  · exact (mention_IsLink_iff _).2 rfl
